import Mathlib

/-!
Shallow embedding of the combustion-dashboard repository.

`homepage.py` builds a `DataStore` over a scattered 3-D point cloud
(a pandas table with required columns x, y, z and arbitrary further
variable columns).  `preprocess_data` derives metadata (per-axis bounds,
variable list, point count), writes it, then for each of the three plane
families (XY, YZ, XZ) computes `number_of_slices_per_plane` slices and for
each of the three axes one binned line profile, persisting each produced
artifact under a per-key file.  Machine reals are modelled by `ℚ`; NaN is
modelled by `Option.none`; the file system holding the pickled artifacts
is modelled by an association list `Cache` keyed by `CacheKey`, where a
write prepends (so a lookup sees the most recent write, exactly as a file
overwrite does).

`scipy.interpolate.griddata` is an external library and is modelled by an
abstract kernel `Interp` with two components: `ok` says whether the
Delaunay triangulation of the selected 2-D points succeeds — Qhull raises
`QhullError` on degenerate (collinear or duplicated) point sets, and the
source wraps none of its `griddata` calls in a try/except, so the
exception aborts the whole preprocessing run mid-stream — and `val` gives
the interpolated value at a grid node on success (`Option.none` for NaN).
A run therefore returns its final state together with a `raised` flag;
writes performed before the raising slice persist, later writes never
happen, and the `alreadyProcessed` flag is only set on completion.

`db_utils.py` is embedded for `CFDDatabase.insert_case` and
`CFDDatabase.import_case_data`: Python runtime values crossing the sqlite
binding boundary are modelled by `PyVal`, and the sqlite rule that only
`None`, numbers and strings are bindable (binding a `dict` raises
`sqlite3.InterfaceError`) is modelled by `bindable`.
-/

/-- The `i`-th of `n` evenly spaced samples from `lo` to `hi`. -/
def linspaceF (lo hi : ℚ) (n : ℕ) (i : ℕ) : ℚ :=
  lo + (hi - lo) * i / ((n : ℚ) - 1)

/-- `np.linspace lo hi n`: `n` evenly spaced samples from `lo` to `hi`
inclusive; for `n ≤ 1` numpy returns `n` copies of `lo`. -/
def linspace (lo hi : ℚ) (n : ℕ) : List ℚ :=
  if n ≤ 1 then List.replicate n lo
  else (List.range n).map (linspaceF lo hi n)

/-- Minimum of a pandas column (`Series.min`); `0` for an empty column
(the pipeline only ever computes it on a loaded, nonempty table). -/
def colMin : List ℚ → ℚ
  | [] => 0
  | x :: xs => xs.foldl min x

/-- Maximum of a pandas column (`Series.max`); `0` for an empty column. -/
def colMax : List ℚ → ℚ
  | [] => 0
  | x :: xs => xs.foldl max x

/-- One row of the point-cloud table: the spatial coordinates plus the
values of the non-spatial variable columns, positionally aligned with
`DataFrame.varNames`. -/
structure Row where
  x : ℚ
  y : ℚ
  z : ℚ
  vals : List ℚ
  deriving DecidableEq

/-- The pandas table held by the data store: columns x, y, z followed by
the variable columns (`varNames`), one `Row` per data point. -/
structure DataFrame where
  varNames : List String
  rows : List Row
  deriving DecidableEq

/-- The `self.metadata` dictionary computed by `preprocess_data`. -/
structure Metadata where
  x_range : ℚ × ℚ
  y_range : ℚ × ℚ
  z_range : ℚ × ℚ
  varNames : List String
  num_points : ℕ
  deriving DecidableEq

/-- `preprocess_data` lines 99-105: ranges are column min/max, varNames
are all columns except x, y, z (already split off in `DataFrame`). -/
def computeMetadata (df : DataFrame) : Metadata :=
  { x_range := (colMin (df.rows.map Row.x), colMax (df.rows.map Row.x)),
    y_range := (colMin (df.rows.map Row.y), colMax (df.rows.map Row.y)),
    z_range := (colMin (df.rows.map Row.z), colMax (df.rows.map Row.z)),
    varNames := df.varNames,
    num_points := df.rows.length }

/-- The three slicing plane families. -/
inductive Plane
  | XY
  | YZ
  | XZ
  deriving DecidableEq

/-- The three principal axes of the line profiles. -/
inductive Axis
  | X
  | Y
  | Z
  deriving DecidableEq

/-- A key of the artifact store: `metadata.json`, `{plane}_slice_{i}.pkl`
or `line_{axis}.pkl`. -/
inductive CacheKey
  | metadataKey
  | slice (p : Plane) (i : ℕ)
  | line (a : Axis)
  deriving DecidableEq

/-- The dictionary pickled for one produced slice: the two free-axis
sample sequences, the fixed coordinate value, the plane tag, the grid
shape, and per variable the flattened interpolated grid (row-major,
`Option.none` for NaN). -/
structure SliceData where
  a1 : List ℚ
  a2 : List ℚ
  fixedVal : ℚ
  plane : Plane
  gridShape : ℕ × ℕ
  grids : List (String × List (Option ℚ))
  deriving DecidableEq

/-- The dictionary pickled for one line profile: positions, axis tag and
per variable the length-G sequence of bin means (`Option.none` for NaN). -/
structure LineData where
  position : List ℚ
  axis : Axis
  vals : List (String × List (Option ℚ))
  deriving DecidableEq

/-- A persisted artifact. -/
inductive Artifact
  | meta (m : Metadata)
  | slice (s : SliceData)
  | line (l : LineData)
  deriving DecidableEq

/-- The artifact store (`filtered/` directory): newest write first. -/
abbrev Cache := List (CacheKey × Artifact)

/-- File lookup: the most recent write at the key, if any. -/
def Cache.get : Cache → CacheKey → Option Artifact
  | [], _ => Option.none
  | (k', a) :: c, k => if k' = k then some a else Cache.get c k

/-- File write: overwrites any previous artifact at the key. -/
def Cache.put (c : Cache) (k : CacheKey) (a : Artifact) : Cache := (k, a) :: c

/-- Abstract interface of `scipy.interpolate.griddata` with linear
(Delaunay-based) interpolation, an external library, not part of this
repository: `ok pts` is whether Qhull's triangulation of the selected
2-D points succeeds — it raises `QhullError` on degenerate (collinear or
duplicated) point sets — and `val pts values node` is the interpolated
value at one grid node when it does, `Option.none` standing for NaN
(e.g. outside the convex hull). -/
structure Interp where
  ok : List (ℚ × ℚ) → Bool
  val : List (ℚ × ℚ) → List ℚ → ℚ × ℚ → Option ℚ

/-- Whether a 2-D point set is degenerate in Qhull's sense: empty, all
duplicates of one point, or all on a single line (zero cross product
against the first distinct pair). -/
def collinearB : List (ℚ × ℚ) → Bool
  | [] => true
  | p0 :: rest =>
    match rest.find? (fun p => decide (p ≠ p0)) with
    | Option.none => true
    | some p1 => rest.all (fun p =>
        decide ((p1.1 - p0.1) * (p.2 - p0.2) - (p1.2 - p0.2) * (p.1 - p0.1) = 0))

/-- The flattened `np.meshgrid(as, bs)` node list in C (row-major) order:
index `n = j * G + k` holds `(as[k], bs[j])`, matching `Xi.flatten()` for
`Xi, Yi = np.meshgrid(xi, yi)` with `G = len(as) = len(bs)`. -/
def meshNodes (as bs : List ℚ) (G : ℕ) : List (ℚ × ℚ) :=
  (List.range (G * G)).map (fun n => (as.getD (n % G) 0, bs.getD (n / G) 0))

/-- `_process_xy_slice` lines 190-194: the rows whose z lies within the
tolerance window `|z - z_val| < (z_max - z_min) * sliceInterptTol`. -/
def xySliceRows (md : Metadata) (tolFrac : ℚ) (df : DataFrame) (zVal : ℚ) : List Row :=
  df.rows.filter (fun r => |r.z - zVal| < (md.z_range.2 - md.z_range.1) * tolFrac)

/-- `_process_yz_slice` window on x. -/
def yzSliceRows (md : Metadata) (tolFrac : ℚ) (df : DataFrame) (xVal : ℚ) : List Row :=
  df.rows.filter (fun r => |r.x - xVal| < (md.x_range.2 - md.x_range.1) * tolFrac)

/-- `_process_xz_slice` window on y. -/
def xzSliceRows (md : Metadata) (tolFrac : ℚ) (df : DataFrame) (yVal : ℚ) : List Row :=
  df.rows.filter (fun r => |r.y - yVal| < (md.y_range.2 - md.y_range.1) * tolFrac)

/-- `_process_xy_slice` lines 199-232: build the result dictionary from
the selected rows — grid axes `xi`, `yi` over the x/y bounds, and per
variable the flattened interpolated grid. -/
def buildXYSlice (interp : Interp) (md : Metadata) (G : ℕ) (zVal : ℚ)
    (sliceRows : List Row) : SliceData :=
  let xi := linspace md.x_range.1 md.x_range.2 G
  let yi := linspace md.y_range.1 md.y_range.2 G
  let nodes := meshNodes xi yi G
  let pts := sliceRows.map (fun r => (r.x, r.y))
  { a1 := xi, a2 := yi, fixedVal := zVal, plane := Plane.XY,
    gridShape := (G, G),
    grids := (List.range md.varNames.length).map (fun vi =>
      (md.varNames.getD vi (""),
       nodes.map (fun nd => interp.val pts (sliceRows.map (fun r => r.vals.getD vi 0)) nd))) }

/-- `_process_yz_slice` grid build: axes `yi`, `zi`; points are (y, z). -/
def buildYZSlice (interp : Interp) (md : Metadata) (G : ℕ) (xVal : ℚ)
    (sliceRows : List Row) : SliceData :=
  let yi := linspace md.y_range.1 md.y_range.2 G
  let zi := linspace md.z_range.1 md.z_range.2 G
  let nodes := meshNodes yi zi G
  let pts := sliceRows.map (fun r => (r.y, r.z))
  { a1 := yi, a2 := zi, fixedVal := xVal, plane := Plane.YZ,
    gridShape := (G, G),
    grids := (List.range md.varNames.length).map (fun vi =>
      (md.varNames.getD vi (""),
       nodes.map (fun nd => interp.val pts (sliceRows.map (fun r => r.vals.getD vi 0)) nd))) }

/-- `_process_xz_slice` grid build: axes `xi`, `zi`; points are (x, z). -/
def buildXZSlice (interp : Interp) (md : Metadata) (G : ℕ) (yVal : ℚ)
    (sliceRows : List Row) : SliceData :=
  let xi := linspace md.x_range.1 md.x_range.2 G
  let zi := linspace md.z_range.1 md.z_range.2 G
  let nodes := meshNodes xi zi G
  let pts := sliceRows.map (fun r => (r.x, r.z))
  { a1 := xi, a2 := zi, fixedVal := yVal, plane := Plane.XZ,
    gridShape := (G, G),
    grids := (List.range md.varNames.length).map (fun vi =>
      (md.varNames.getD vi (""),
       nodes.map (fun nd => interp.val pts (sliceRows.map (fun r => r.vals.getD vi 0)) nd))) }

/-- `DataStore._process_xy_slice`: `None` (no artifact) when fewer than
10 rows fall in the tolerance window; otherwise the grids are built by
calling `griddata` once per variable on the selected (x, y) points — if
there is at least one variable and the triangulation of those points
fails, `QhullError` propagates out of the uncaught call (`Except.error`);
otherwise the slice dictionary is produced. -/
def processXYSlice (interp : Interp) (md : Metadata) (G : ℕ) (tolFrac : ℚ)
    (df : DataFrame) (zVal : ℚ) : Except Unit (Option SliceData) :=
  if (xySliceRows md tolFrac df zVal).length < 10 then Except.ok Option.none
  else if !md.varNames.isEmpty
      && !interp.ok ((xySliceRows md tolFrac df zVal).map (fun r => (r.x, r.y))) then
    Except.error ()
  else Except.ok (some (buildXYSlice interp md G zVal (xySliceRows md tolFrac df zVal)))

/-- `DataStore._process_yz_slice`, same error behaviour on the (y, z)
points. -/
def processYZSlice (interp : Interp) (md : Metadata) (G : ℕ) (tolFrac : ℚ)
    (df : DataFrame) (xVal : ℚ) : Except Unit (Option SliceData) :=
  if (yzSliceRows md tolFrac df xVal).length < 10 then Except.ok Option.none
  else if !md.varNames.isEmpty
      && !interp.ok ((yzSliceRows md tolFrac df xVal).map (fun r => (r.y, r.z))) then
    Except.error ()
  else Except.ok (some (buildYZSlice interp md G xVal (yzSliceRows md tolFrac df xVal)))

/-- `DataStore._process_xz_slice`, same error behaviour on the (x, z)
points. -/
def processXZSlice (interp : Interp) (md : Metadata) (G : ℕ) (tolFrac : ℚ)
    (df : DataFrame) (yVal : ℚ) : Except Unit (Option SliceData) :=
  if (xzSliceRows md tolFrac df yVal).length < 10 then Except.ok Option.none
  else if !md.varNames.isEmpty
      && !interp.ok ((xzSliceRows md tolFrac df yVal).map (fun r => (r.x, r.z))) then
    Except.error ()
  else Except.ok (some (buildXZSlice interp md G yVal (xzSliceRows md tolFrac df yVal)))

/-- The slice function of a plane family. -/
def processSlice (interp : Interp) (md : Metadata) (G : ℕ) (tolFrac : ℚ)
    (df : DataFrame) (P : Plane) (v : ℚ) : Except Unit (Option SliceData) :=
  match P with
  | Plane.XY => processXYSlice interp md G tolFrac df v
  | Plane.YZ => processYZSlice interp md G tolFrac df v
  | Plane.XZ => processXZSlice interp md G tolFrac df v

/-- The window selection of a plane family. -/
def sliceSelect (md : Metadata) (tolFrac : ℚ) (df : DataFrame) (P : Plane) (v : ℚ) :
    List Row :=
  match P with
  | Plane.XY => xySliceRows md tolFrac df v
  | Plane.YZ => yzSliceRows md tolFrac df v
  | Plane.XZ => xzSliceRows md tolFrac df v

/-- The fixed-axis coordinate of a row for a plane family. -/
def sliceCoord (P : Plane) (r : Row) : ℚ :=
  match P with
  | Plane.XY => r.z
  | Plane.YZ => r.x
  | Plane.XZ => r.y

/-- The bounds of a plane family's fixed axis (`preprocess_data`
lines 126, 144, 162). -/
def fixedRange (md : Metadata) (P : Plane) : ℚ × ℚ :=
  match P with
  | Plane.XY => md.z_range
  | Plane.YZ => md.x_range
  | Plane.XZ => md.y_range

/-- The bounds of the first free axis of a plane family. -/
def freeRange1 (md : Metadata) (P : Plane) : ℚ × ℚ :=
  match P with
  | Plane.XY => md.x_range
  | Plane.YZ => md.y_range
  | Plane.XZ => md.x_range

/-- The bounds of the second free axis of a plane family. -/
def freeRange2 (md : Metadata) (P : Plane) : ℚ × ℚ :=
  match P with
  | Plane.XY => md.y_range
  | Plane.YZ => md.z_range
  | Plane.XZ => md.z_range

/-- `preprocess_data` lines 128, 146, 164: the fixed-axis positions of a
plane family, `np.linspace(min, max, num_slices)`. -/
def slicePositions (md : Metadata) (P : Plane) (S : ℕ) : List ℚ :=
  linspace (fixedRange md P).1 (fixedRange md P).2 S

/-- The bounds of an axis for a line profile. -/
def lineRange (md : Metadata) (a : Axis) : ℚ × ℚ :=
  match a with
  | Axis.X => md.x_range
  | Axis.Y => md.y_range
  | Axis.Z => md.z_range

/-- The binned coordinate column of an axis. -/
def lineCoord (a : Axis) (r : Row) : ℚ :=
  match a with
  | Axis.X => r.x
  | Axis.Y => r.y
  | Axis.Z => r.z

/-- Arithmetic mean (`Series.mean`) of a nonempty value list. -/
def mean (xs : List ℚ) : ℚ := xs.sum / xs.length

/-- `DataStore._process_line_data_direct`, one axis: G positions over the
axis bounds, bin width `(positions[1] - positions[0]) * 1.1`, and per
variable per position the mean over the rows within the bin, NaN when the
bin is empty. -/
def processLineAxis (md : Metadata) (G : ℕ) (df : DataFrame) (a : Axis) : LineData :=
  let positions := linspace (lineRange md a).1 (lineRange md a).2 G
  let binWidth := (positions.getD 1 0 - positions.getD 0 0) * (11 / 10)
  { position := positions, axis := a,
    vals := (List.range md.varNames.length).map (fun vi =>
      (md.varNames.getD vi (""),
       positions.map (fun pos =>
         let sel := df.rows.filter (fun r => |lineCoord a r - pos| < binWidth)
         if sel.isEmpty then Option.none
         else some (mean (sel.map (fun r => r.vals.getD vi 0)))))) }

/-- The free-axis coordinate pairs handed to `griddata` for a plane
family (`slice_df[["x","y"]]`, `[["y","z"]]`, `[["x","z"]]`). -/
def slicePts (P : Plane) (rows : List Row) : List (ℚ × ℚ) :=
  match P with
  | Plane.XY => rows.map (fun r => (r.x, r.y))
  | Plane.YZ => rows.map (fun r => (r.y, r.z))
  | Plane.XZ => rows.map (fun r => (r.x, r.z))

/-- One conditional file write of the preprocessing run: the key and the
artifact written there, or `Option.none` when the run skips that key
(a slice with fewer than 10 selected points writes nothing). -/
def applyWrites : Cache → List (CacheKey × Option Artifact) → Cache
  | c, [] => c
  | c, (k, some a) :: ws => applyWrites (c.put k a) ws
  | c, (_, Option.none) :: ws => applyWrites c ws

/-- The last artifact actually written at a key by a write sequence. -/
def lastWrite : List (CacheKey × Option Artifact) → CacheKey → Option Artifact
  | [], _ => Option.none
  | (k', v) :: ws, k =>
    match lastWrite ws k with
    | some a => some a
    | Option.none => if k' = k then v else Option.none

/-- The write performed by a step that did not raise: `Except.ok` with
the payload (`Option.none` = the step writes nothing). -/
def writeOf : Except Unit (Option Artifact) → Option Artifact
  | Except.ok v => v
  | Except.error _ => Option.none

/-- Whether a step completes without raising. -/
def isOkB : Except Unit (Option Artifact) → Bool
  | Except.ok _ => true
  | Except.error _ => false

/-- Executes the write steps of a preprocessing run in order: an `ok`
step writes (or skips) its key; an `error` step is an uncaught exception
— the run stops there, earlier writes persist, and the raised flag is
reported. -/
def runWrites : Cache → List (CacheKey × Except Unit (Option Artifact)) → Cache × Bool
  | c, [] => (c, false)
  | c, (k, Except.ok (some a)) :: ws => runWrites (c.put k a) ws
  | c, (_, Except.ok Option.none) :: ws => runWrites c ws
  | c, (_, Except.error _) :: _ => (c, true)

/-- The write steps actually executed: the prefix before the first
raising step, with payloads extracted. -/
def okPrefix : List (CacheKey × Except Unit (Option Artifact)) →
    List (CacheKey × Option Artifact)
  | [] => []
  | (k, Except.ok v) :: ws => (k, v) :: okPrefix ws
  | (_, Except.error _) :: _ => []

/-- Whether some step of the sequence raises. -/
def raisesIn : List (CacheKey × Except Unit (Option Artifact)) → Bool
  | [] => false
  | (_, Except.ok _) :: ws => raisesIn ws
  | (_, Except.error _) :: _ => true

/-- `preprocess_data` slice loop of one plane family (lines 122-177):
slice `i` is computed at `slice_positions[i]` and written at key
`(plane, i)` only when produced; a `QhullError` from the slice's
`griddata` calls propagates. -/
def planeWrites (interp : Interp) (md : Metadata) (G : ℕ) (tolFrac : ℚ) (S : ℕ)
    (df : DataFrame) (P : Plane) : List (CacheKey × Except Unit (Option Artifact)) :=
  (List.range S).map (fun i =>
    (CacheKey.slice P i,
     Except.map (Option.map Artifact.slice)
       (processSlice interp md G tolFrac df P ((slicePositions md P S).getD i 0))))

/-- `_process_line_data_direct` writes one artifact per axis,
unconditionally, and calls no `griddata`. -/
def lineWrites (md : Metadata) (G : ℕ) (df : DataFrame) :
    List (CacheKey × Except Unit (Option Artifact)) :=
  [Axis.X, Axis.Y, Axis.Z].map (fun a =>
    (CacheKey.line a, Except.ok (some (Artifact.line (processLineAxis md G df a)))))

/-- The full write sequence of one `preprocess_data` run: metadata first,
then the XY, YZ, XZ slice loops, then the line profiles. -/
def preprocessWrites (interp : Interp) (md : Metadata) (G : ℕ) (tolFrac : ℚ)
    (S : ℕ) (df : DataFrame) : List (CacheKey × Except Unit (Option Artifact)) :=
  (CacheKey.metadataKey, Except.ok (some (Artifact.meta md)))
    :: (planeWrites interp md G tolFrac S df Plane.XY
        ++ (planeWrites interp md G tolFrac S df Plane.YZ
            ++ (planeWrites interp md G tolFrac S df Plane.XZ
                ++ lineWrites md G df)))

/-- The in-memory state of `DataStore` together with the artifact files:
the held table, the metadata dictionary (`Option.none` for the initial
empty dict), the `alreadyProcessed` flag, the configuration fields set in
`__init__`, and the artifact store. -/
structure DataStore where
  df : Option DataFrame
  metadata : Option Metadata
  alreadyProcessed : Bool
  numSlices : ℕ
  sliceInterptTol : ℚ
  lineInterptTol : ℚ
  GRID_SIZE : ℕ
  cache : Cache
  deriving DecidableEq

/-- `DataStore.preprocess_data`: early return when no table is held or
when `alreadyProcessed` is set; otherwise compute and store the metadata,
then perform the artifact writes in order.  There is no try/except in the
body, so a `QhullError` from a slice aborts the remaining writes and
propagates to the caller (second component `true`); the
`alreadyProcessed` flag (line 183) is set only when the run completes. -/
def preprocessData (interp : Interp) (ds : DataStore) : DataStore × Bool :=
  match ds.df with
  | Option.none => (ds, false)
  | some df =>
    if ds.alreadyProcessed then (ds, false)
    else
      let md := computeMetadata df
      let r := runWrites ds.cache
        (preprocessWrites interp md ds.GRID_SIZE ds.sliceInterptTol ds.numSlices df)
      ({ ds with metadata := some md, cache := r.1, alreadyProcessed := !r.2 }, r.2)

/-- Whether a `preprocess_data` call executes its body, i.e. neither
early-return guard (lines 89-93) fires. -/
def preprocessRuns (ds : DataStore) : Bool := ds.df.isSome && !ds.alreadyProcessed

/-- `DataStore.set_dataframe`: store the table, clear the processed flag,
and call `preprocess_data`; an exception from preprocessing propagates to
the caller (second component). -/
def setDataframe (interp : Interp) (ds : DataStore) (df : DataFrame) : DataStore × Bool :=
  preprocessData interp { ds with df := some df, alreadyProcessed := false }

/-- Whether the `preprocess_data` call made by `set_dataframe ds df`
executes its body. -/
def setDataframeRuns (ds : DataStore) (df : DataFrame) : Bool :=
  preprocessRuns { ds with df := some df, alreadyProcessed := false }

/-- `DataStore.__init__` followed by `load_default_data`: the fields are
set (with `alreadyProcessed = True`), then, when the default CSV exists
(`defaultDf = some df`), the table is read and `preprocess_data` is
called inside `load_default_data`'s try/except, which on an exception
prints and sets `self.df = None`. -/
def initStore (interp : Interp) (defaultDf : Option DataFrame) : DataStore :=
  match defaultDf with
  | Option.none =>
    { df := Option.none, metadata := Option.none, alreadyProcessed := true,
      numSlices := 15, sliceInterptTol := 1 / 100, lineInterptTol := 1 / 20,
      GRID_SIZE := 400, cache := [] }
  | some df =>
    let r := preprocessData interp
      { df := some df, metadata := Option.none, alreadyProcessed := true,
        numSlices := 15, sliceInterptTol := 1 / 100, lineInterptTol := 1 / 20,
        GRID_SIZE := 400, cache := [] }
    if r.2 then { r.1 with df := Option.none } else r.1

/-- A parsed uploaded CSV: its column names and its rows (cells aligned
with the columns). -/
structure RawTable where
  columns : List String
  cells : List (List ℚ)
  deriving DecidableEq

/-- Index of a column name. -/
def colIndex (cols : List String) (c : String) : ℕ := cols.findIdx (fun c0 => c0 == c)

/-- View of a parsed CSV as the `DataFrame` held by the store: varNames
are all columns other than x, y, z, in column order. -/
def toDataFrame (t : RawTable) : DataFrame :=
  { varNames := t.columns.filter (fun c => !(c == ("x") || c == ("y") || c == ("z"))),
    rows := t.cells.map (fun row =>
      { x := row.getD (colIndex t.columns ("x")) 0,
        y := row.getD (colIndex t.columns ("y")) 0,
        z := row.getD (colIndex t.columns ("z")) 0,
        vals := ((t.columns.zip row).filter
          (fun p => !(p.1 == ("x") || p.1 == ("y") || p.1 == ("z")))).map (fun p => p.2) }) }

/-- Outcome rendered by the upload callback. -/
inductive UploadStatus
  | noUpload
  | invalidColumns
  | loaded
  | loadError
  deriving DecidableEq

/-- The required spatial columns of `handle_file_upload`. -/
def requiredCols : List String := ["x", "y", "z"]

/-- `handle_file_upload` (CSV branch): with no upload the store is left
alone; with a parsed CSV missing any of x, y, z a danger alert is
returned and nothing else happens; otherwise `set_dataframe` runs inside
the callback's try/except — an exception from preprocessing is caught
and reported as an error alert (the store mutations made before the
raise persist). -/
def handleFileUpload (interp : Interp) (ds : DataStore) (contents : Option RawTable) :
    UploadStatus × DataStore :=
  match contents with
  | Option.none => (UploadStatus.noUpload, ds)
  | some t =>
    if (requiredCols.all (fun c => t.columns.contains c)) = false then
      (UploadStatus.invalidColumns, ds)
    else
      let r := setDataframe interp ds (toDataFrame t)
      if r.2 then (UploadStatus.loadError, r.1) else (UploadStatus.loaded, r.1)

/-- A Python runtime value as it reaches the sqlite parameter-binding
boundary in `db_utils.py`: `None`, a string, a number, or a dict. -/
inductive PyVal
  | none
  | str (s : String)
  | num (q : ℚ)
  | dict (entries : List (String × PyVal))

/-- Whether `sqlite3` can bind the value as a statement parameter; a
`dict` raises `sqlite3.InterfaceError`. -/
def bindable : PyVal → Bool
  | PyVal.dict _ => false
  | _ => true

/-- `dict.keys()/.values()` access: fails (AttributeError) on non-dicts. -/
def dictEntries : PyVal → Option (List (String × PyVal))
  | PyVal.dict es => some es
  | _ => Option.none

/-- Python truthiness of the values reaching
`if performance_metrics and status == "completed"`. -/
def truthy : PyVal → Bool
  | PyVal.none => false
  | PyVal.str s => !(s == ("")) 
  | PyVal.num q => !(decide (q = 0))
  | PyVal.dict es => !es.isEmpty

/-- Python `v == "completed"`: true only for the equal string. -/
def pyEqStr : PyVal → String → Bool
  | PyVal.str s, t => s == t
  | _, _ => false

/-- `str(v)` as used in the f-string building the imported case name. -/
def pyToString : PyVal → String
  | PyVal.str s => s
  | PyVal.num q => toString q
  | PyVal.none => "None"
  | PyVal.dict _ => "dict"

/-- `dict.get k`: the stored value, when present. -/
def pyGet (d : List (String × PyVal)) (k : String) : Option PyVal :=
  (d.find? (fun p => p.1 == k)).map (fun p => p.2)

/-- One row of the `run_cases` table. -/
structure CaseRow where
  id : ℕ
  case_name : PyVal
  timestamp : PyVal
  description : PyVal
  status : PyVal

/-- The three tables of `cfd_main_database.db`. -/
structure DB where
  run_cases : List CaseRow
  design_parameters : List (ℕ × List (String × PyVal))
  performance_metrics : List (ℕ × List (String × PyVal))

/-- `CFDDatabase.insert_case(case_name, description, status, case_date,
design_params, performance_metrics)`: inserts into `run_cases` binding
`(case_name, case_date, description, status)`, then into
`design_parameters`, then (when `performance_metrics` is truthy and the
status equals "completed") into `performance_metrics`, committing at the
end; any exception — in particular an unbindable parameter or a `.keys()`
call on a non-dict — is caught, the connection is closed without a
commit (so nothing persists), and `False` is returned.  Post-binding
sqlite constraint checks are not modelled: the claims settled here fail
already at parameter binding. -/
def insert_case (db : DB) (case_name description status case_date : PyVal)
    (design_params : PyVal) (performance_metrics : PyVal) : Bool × DB :=
  if (bindable case_name && bindable case_date && bindable description
      && bindable status) = false then
    (false, db)
  else
    match dictEntries design_params with
    | Option.none => (false, db)
    | some dps =>
      if (dps.all (fun p => bindable p.2)) = false then (false, db)
      else
        let case_id := db.run_cases.length + 1
        let db1 : DB :=
          { run_cases := db.run_cases
              ++ [{ id := case_id, case_name := case_name, timestamp := case_date,
                    description := description, status := status }],
            design_parameters := db.design_parameters ++ [(case_id, dps)],
            performance_metrics := db.performance_metrics }
        if (truthy performance_metrics && pyEqStr status ("completed")) = false then
          (true, db1)
        else
          match dictEntries performance_metrics with
          | Option.none => (false, db)
          | some pms =>
            if (pms.all (fun p => bindable p.2)) = false then (false, db)
            else
              (true, { db1 with
                performance_metrics := db1.performance_metrics ++ [(case_id, pms)] })

/-- The design-parameter columns of `SCHEMA` with their defaults. -/
def designParamDefaults : List (String × ℚ) :=
  [("fuel_mass_flow_rate", 1 / 10), ("injection_speed_prim", 50),
   ("injection_speed_stage", 50), ("injector_width_stage", 1 / 10),
   ("injector_primary_diam", 1 / 20), ("equivalence_ratio", 7 / 10),
   ("inlet_temperature", 600), ("inlet_pressure", 10), ("combustor_length", 3 / 5)]

/-- The performance-metric columns of `SCHEMA`. -/
def performanceMetricNames : List String :=
  ["nox_emissions", "co_emissions", "soot_formation", "temperature_max",
   "temperature_avg", "temperature_std", "pressure_drop",
   "combustion_efficiency", "mixing_time"]

/-- `CFDDatabase.import_case_data` on a successfully parsed JSON object
`data`: builds the renamed case, the design-parameter dict (with schema
defaults) and the optional metrics dict, then calls `insert_case` with
FIVE positional arguments — `(new_name, description, status,
design_params, performance_metrics)` — against the six-parameter
signature `(case_name, description, status, case_date, design_params,
performance_metrics=None)`, so the design-parameter dict lands in the
`case_date` slot, the metrics value lands in the `design_params` slot,
and the `performance_metrics` parameter keeps its default `None`.
Returns `(success, new_name if success else None)`. -/
def import_case_data (db : DB) (data : List (String × PyVal)) (now : String) :
    (Bool × Option String) × DB :=
  let original_name := (pyGet data ("case_name")).getD (PyVal.str ("Imported_Case"))
  let new_name := pyToString original_name ++ "_imported_" ++ now
  let design_params := PyVal.dict (designParamDefaults.map (fun pd =>
    (pd.1, (pyGet data pd.1).getD (PyVal.num pd.2))))
  let statusVal := (pyGet data ("status")).getD PyVal.none
  let metricPresent := fun m => !((pyGet data m).getD PyVal.none matches PyVal.none)
  let performance_metrics :=
    if pyEqStr statusVal ("completed") && performanceMetricNames.any metricPresent then
      PyVal.dict ((performanceMetricNames.filter metricPresent).map
        (fun m => (m, (pyGet data m).getD PyVal.none)))
    else PyVal.none
  let res := insert_case db (PyVal.str new_name)
    ((pyGet data ("description")).getD (PyVal.str ("")))
    ((pyGet data ("status")).getD (PyVal.str ("completed")))
    design_params performance_metrics PyVal.none
  ((res.1, if res.1 then some new_name else Option.none), res.2)

/-- The faithful concrete interpolation kernel used in the concrete
runs: the triangulation succeeds exactly on non-degenerate point sets
(`collinearB` false), as Qhull does, and every interpolated value is NaN
(the theorems hold for every value function). -/
def interpQ : Interp :=
  { ok := fun pts => !collinearB pts, val := fun _ _ _ => Option.none }

/-- A point with one variable column. -/
def mkRow (a b c v : ℚ) : Row := { x := a, y := b, z := c, vals := [v] }

/-- A store as freshly constructed, with a small test configuration
(2 slices per plane, 2x2 grids) so that concrete runs stay small. -/
def ds0 : DataStore :=
  { df := Option.none, metadata := Option.none, alreadyProcessed := true,
    numSlices := 2, sliceInterptTol := 1 / 100, lineInterptTol := 1 / 20,
    GRID_SIZE := 2, cache := [] }

/-- Eleven points: ten at z = 0 spread over the plane in general position
(not collinear, so their triangulation succeeds) and one at z = 1, so the
XY slice at index 0 (z = 0) selects exactly those ten points and is
produced. -/
def df1 : DataFrame :=
  { varNames := ["v"],
    rows := [mkRow 0 0 0 0, mkRow 1 0 0 1, mkRow 2 0 0 2, mkRow 3 0 0 3,
             mkRow 0 1 0 4, mkRow 1 1 0 5, mkRow 2 1 0 6, mkRow 3 2 0 7,
             mkRow 1 2 0 8, mkRow 2 3 0 9, mkRow 0 0 1 0] }

/-- Five points on the main diagonal: below every slice threshold, so no
`griddata` call is ever reached. -/
def df2 : DataFrame :=
  { varNames := ["v"],
    rows := [mkRow 0 0 0 0, mkRow 1 1 1 1, mkRow 2 2 2 2, mkRow 3 3 3 3,
             mkRow 4 4 4 4] }

/-- Eleven points: ten COLLINEAR points (the x = y diagonal) at z = 0 and
one at z = 1 — the XY slice at index 0 selects the ten collinear points,
on which Qhull raises. -/
def dfC : DataFrame :=
  { varNames := ["v"],
    rows := [mkRow 0 0 0 0, mkRow 1 1 0 1, mkRow 2 2 0 2, mkRow 3 3 0 3,
             mkRow 4 4 0 4, mkRow 5 5 0 5, mkRow 6 6 0 6, mkRow 7 7 0 7,
             mkRow 8 8 0 8, mkRow 9 9 0 9, mkRow 0 0 1 0] }

/-- The store holding `df1` just before a preprocessing run. -/
def dsW : DataStore :=
  { df := some df1, metadata := Option.none, alreadyProcessed := false,
    numSlices := 2, sliceInterptTol := 1 / 100, lineInterptTol := 1 / 20,
    GRID_SIZE := 2, cache := [] }

/-- The store holding `df2` just before a preprocessing run. -/
def dsW2 : DataStore := { dsW with df := some df2 }

/-- An uploaded table missing the required column z. -/
def t0 : RawTable := { columns := ["x", "y", "q"], cells := [[1, 2, 3]] }


/-! ### Write-sequence lemmas -/

theorem applyWrites_get (ws : List (CacheKey × Option Artifact)) (c : Cache) (k : CacheKey) :
    Cache.get (applyWrites c ws) k =
      match lastWrite ws k with
      | some a => some a
      | Option.none => Cache.get c k := by
  induction ws generalizing c with
  | nil => simp [applyWrites, lastWrite]
  | cons w rest ih =>
    obtain ⟨k', v⟩ := w
    cases v with
    | some a =>
      show Cache.get (applyWrites (c.put k' a) rest) k = _
      rw [ih]
      cases hrest : lastWrite rest k with
      | some b => simp [lastWrite, hrest]
      | none =>
        by_cases hk : k' = k
        · simp [lastWrite, hrest, hk, Cache.put, Cache.get]
        · simp [lastWrite, hrest, hk, Cache.put, Cache.get]
    | none =>
      show Cache.get (applyWrites c rest) k = _
      rw [ih]
      cases hrest : lastWrite rest k with
      | some b => simp [lastWrite, hrest]
      | none => simp [lastWrite, hrest]

theorem lastWrite_append (ws1 ws2 : List (CacheKey × Option Artifact)) (k : CacheKey) :
    lastWrite (ws1 ++ ws2) k =
      match lastWrite ws2 k with
      | some a => some a
      | Option.none => lastWrite ws1 k := by
  induction ws1 with
  | nil =>
    simp only [List.nil_append]
    cases lastWrite ws2 k <;> simp [lastWrite]
  | cons w rest ih =>
    obtain ⟨k', v⟩ := w
    show (match lastWrite (rest ++ ws2) k with
          | some a => some a
          | Option.none => if k' = k then v else Option.none) = _
    rw [ih]
    cases h2 : lastWrite ws2 k <;> cases h1 : lastWrite rest k <;>
      simp [lastWrite, h1]

theorem lastWrite_eq_none_of (ws : List (CacheKey × Option Artifact)) (k : CacheKey)
    (h : ∀ w ∈ ws, w.1 ≠ k) : lastWrite ws k = Option.none := by
  induction ws with
  | nil => rfl
  | cons w rest ih =>
    obtain ⟨k', v⟩ := w
    have h1 : k' ≠ k := h (k', v) (List.mem_cons_self _ _)
    rw [lastWrite, ih (fun w hw => h w (List.mem_cons_of_mem _ hw))]
    simp [h1]

theorem lastWrite_range_map (n : ℕ) (keyOf : ℕ → CacheKey) (g : ℕ → Option Artifact)
    (hinj : ∀ a b : ℕ, keyOf a = keyOf b → a = b) (j : ℕ) :
    lastWrite ((List.range n).map (fun i => (keyOf i, g i))) (keyOf j)
      = if j < n then g j else Option.none := by
  induction n with
  | zero => simp [lastWrite]
  | succ m ih =>
    rw [List.range_succ, List.map_append, lastWrite_append]
    by_cases hj : j = m
    · subst hj
      cases hgj : g j with
      | some a => simp [lastWrite, hgj]
      | none => simp [lastWrite, hgj, ih, Nat.lt_succ_self]
    · have hne : keyOf m ≠ keyOf j := fun h => hj (hinj _ _ h).symm
      have hlt : (j < m + 1) = (j < m) := by
        apply propext
        constructor
        · intro h; omega
        · intro h; omega
      simp [lastWrite, hne, ih, hlt]

/-! ### List and linspace lemmas -/

theorem getD_map_of_lt {α β : Type} (f : α → β) (l : List α) (j : ℕ)
    (h : j < l.length) (d : α) (e : β) :
    (l.map f).getD j e = f (l.getD j d) := by
  induction l generalizing j with
  | nil => simp at h
  | cons a t ih =>
    cases j with
    | zero => rfl
    | succ j0 =>
      have : j0 < t.length := by simpa using h
      simpa [List.getD] using ih j0 this

theorem linspace_length (lo hi : ℚ) (n : ℕ) : (linspace lo hi n).length = n := by
  rw [linspace]
  split
  · rw [List.length_replicate]
  · rw [List.length_map, List.length_range]

theorem range_getD (n j : ℕ) (hj : j < n) : (List.range n).getD j 0 = j := by
  rw [List.getD_eq_getElem?_getD, List.getElem?_range hj]
  rfl

theorem linspace_getD (lo hi : ℚ) (n : ℕ) (j : ℕ) (hj : j < n) (h2 : 2 ≤ n) :
    (linspace lo hi n).getD j 0 = linspaceF lo hi n j := by
  rw [linspace, if_neg (by omega)]
  rw [getD_map_of_lt (linspaceF lo hi n) (List.range n) j (by simpa using hj) 0 0]
  rw [range_getD n j hj]

theorem linspace_head (lo hi : ℚ) (n : ℕ) (h : 1 ≤ n) :
    (linspace lo hi n).head? = some lo := by
  rw [linspace]
  by_cases h1 : n ≤ 1
  · have : n = 1 := by omega
    subst this
    rfl
  · rw [if_neg h1]
    obtain ⟨m, rfl⟩ : ∃ m, n = m + 1 := ⟨n - 1, by omega⟩
    rw [List.range_succ_eq_map]
    rw [List.map_cons, List.head?_cons]
    rw [linspaceF]
    norm_num

theorem linspace_getLast (lo hi : ℚ) (n : ℕ) (h : 2 ≤ n) :
    (linspace lo hi n).getLast? = some hi := by
  rw [linspace, if_neg (by omega)]
  obtain ⟨m, rfl⟩ : ∃ m, n = m + 1 := ⟨n - 1, by omega⟩
  rw [List.range_succ, List.map_append, List.map_cons, List.map_nil,
    List.getLast?_concat]
  have hm : ((m : ℚ)) ≠ 0 := by
    have h1 : 0 < m := by omega
    exact_mod_cast h1.ne'
  rw [linspaceF]
  congr 1
  push_cast
  field_simp

theorem linspace_chain_le (lo hi : ℚ) (n : ℕ) (h : lo ≤ hi) :
    List.Chain' (· ≤ ·) (linspace lo hi n) := by
  rw [linspace]
  by_cases h1 : n ≤ 1
  · rw [if_pos h1]
    interval_cases n <;> simp
  · rw [if_neg h1]
    rw [List.chain'_map]
    obtain ⟨m, rfl⟩ : ∃ m, n = m + 1 := ⟨n - 1, by omega⟩
    rw [List.chain'_range_succ]
    intro j hj
    have hc : (0 : ℚ) < ((m + 1 : ℕ) : ℚ) - 1 := by
      have h2 : 1 ≤ m := by omega
      have h3 : (1 : ℚ) ≤ (m : ℚ) := by exact_mod_cast h2
      push_cast
      linarith
    rw [linspaceF, linspaceF]
    apply add_le_add_left
    rw [div_le_div_iff_of_pos_right hc]
    apply mul_le_mul_of_nonneg_left _ (by linarith)
    exact_mod_cast Nat.le_succ j

theorem linspace_chain_lt (lo hi : ℚ) (n : ℕ) (h : lo < hi) :
    List.Chain' (· < ·) (linspace lo hi n) := by
  rw [linspace]
  by_cases h1 : n ≤ 1
  · rw [if_pos h1]
    interval_cases n <;> simp
  · rw [if_neg h1]
    rw [List.chain'_map]
    obtain ⟨m, rfl⟩ : ∃ m, n = m + 1 := ⟨n - 1, by omega⟩
    rw [List.chain'_range_succ]
    intro j hj
    have hc : (0 : ℚ) < ((m + 1 : ℕ) : ℚ) - 1 := by
      have h2 : 1 ≤ m := by omega
      have h3 : (1 : ℚ) ≤ (m : ℚ) := by exact_mod_cast h2
      push_cast
      linarith
    rw [linspaceF, linspaceF]
    apply add_lt_add_left
    rw [div_lt_div_iff_of_pos_right hc]
    apply mul_lt_mul_of_pos_left _ (by linarith)
    exact_mod_cast Nat.lt_succ_self j

theorem foldl_min_le (xs : List ℚ) (a : ℚ) : xs.foldl min a ≤ a := by
  induction xs generalizing a with
  | nil => simp
  | cons x t ih => exact le_trans (ih (min a x)) (min_le_left a x)

theorem le_foldl_max (xs : List ℚ) (a : ℚ) : a ≤ xs.foldl max a := by
  induction xs generalizing a with
  | nil => simp
  | cons x t ih => exact le_trans (le_max_left a x) (ih (max a x))

theorem colMin_le_colMax (l : List ℚ) (h : l ≠ []) : colMin l ≤ colMax l := by
  cases l with
  | nil => exact absurd rfl h
  | cons x xs => exact le_trans (foldl_min_le xs x) (le_foldl_max xs x)

/-! ### Run semantics lemmas -/

theorem runWrites_eq (ws : List (CacheKey × Except Unit (Option Artifact))) (c : Cache) :
    runWrites c ws = (applyWrites c (okPrefix ws), raisesIn ws) := by
  induction ws generalizing c with
  | nil => rfl
  | cons w rest ih =>
    obtain ⟨k, v⟩ := w
    cases v with
    | ok v0 =>
      cases v0 with
      | some a =>
        show runWrites (c.put k a) rest = _
        rw [ih]
        rfl
      | none =>
        show runWrites c rest = _
        rw [ih]
        rfl
    | error e => rfl

theorem okPrefix_eq_map (ws : List (CacheKey × Except Unit (Option Artifact)))
    (h : raisesIn ws = false) :
    okPrefix ws = ws.map (fun w => (w.1, writeOf w.2)) := by
  induction ws with
  | nil => rfl
  | cons w rest ih =>
    obtain ⟨k, v⟩ := w
    cases v with
    | ok v0 =>
      have hr : raisesIn rest = false := h
      show (k, v0) :: okPrefix rest = _
      rw [ih hr]
      rfl
    | error e => exact absurd h (by simp [raisesIn])

theorem raisesIn_eq_false_iff (ws : List (CacheKey × Except Unit (Option Artifact))) :
    raisesIn ws = false ↔ ∀ w ∈ ws, isOkB w.2 = true := by
  induction ws with
  | nil => simp [raisesIn]
  | cons w rest ih =>
    obtain ⟨k, v⟩ := w
    cases v with
    | ok v0 =>
      constructor
      · intro h w hw
        rcases List.mem_cons.mp hw with h1 | h1
        · subst h1; rfl
        · exact (ih.mp h) w h1
      · intro h
        exact ih.mpr (fun w hw => h w (List.mem_cons_of_mem _ hw))
    | error e =>
      constructor
      · intro h; exact absurd h (by simp [raisesIn])
      · intro h
        have := h (k, Except.error e) (List.mem_cons_self _ _)
        exact absurd this (by simp [isOkB])

theorem lastWrite_okPrefix_some (ws : List (CacheKey × Except Unit (Option Artifact)))
    (k : CacheKey) (a : Artifact) (h : lastWrite (okPrefix ws) k = some a) :
    ∃ w ∈ ws, w.1 = k ∧ w.2 = Except.ok (some a) := by
  induction ws with
  | nil => exact absurd h (by simp [okPrefix, lastWrite])
  | cons w rest ih =>
    obtain ⟨k0, v⟩ := w
    cases v with
    | ok v0 =>
      have h0 : lastWrite ((k0, v0) :: okPrefix rest) k = some a := h
      rw [lastWrite] at h0
      cases hrest : lastWrite (okPrefix rest) k with
      | some b =>
        rw [hrest] at h0
        have hb : b = a := by simpa using h0
        obtain ⟨w, hw, hk, hv⟩ := ih (by rw [hrest, hb])
        exact ⟨w, List.mem_cons_of_mem _ hw, hk, hv⟩
      | none =>
        rw [hrest] at h0
        by_cases hk : k0 = k
        · rw [if_pos hk] at h0
          have hv : v0 = some a := by simpa using h0
          exact ⟨(k0, Except.ok v0), List.mem_cons_self _ _, hk, by rw [hv]⟩
        · rw [if_neg hk] at h0
          exact absurd h0 (by simp)
    | error e => exact absurd h (by simp [okPrefix, lastWrite])

/-! ### Preprocessing characterization -/

theorem preprocessData_eq (interp : Interp) (ds : DataStore) (df : DataFrame)
    (hdf : ds.df = some df) (hpr : ds.alreadyProcessed = false) :
    preprocessData interp ds =
      ({ ds with
         metadata := some (computeMetadata df),
         cache := applyWrites ds.cache
           (okPrefix (preprocessWrites interp (computeMetadata df) ds.GRID_SIZE
             ds.sliceInterptTol ds.numSlices df)),
         alreadyProcessed := !(raisesIn (preprocessWrites interp (computeMetadata df)
           ds.GRID_SIZE ds.sliceInterptTol ds.numSlices df)) },
       raisesIn (preprocessWrites interp (computeMetadata df) ds.GRID_SIZE
         ds.sliceInterptTol ds.numSlices df)) := by
  rw [preprocessData, hdf, hpr]
  simp [runWrites_eq]

theorem preprocessData_raised (interp : Interp) (ds : DataStore) (df : DataFrame)
    (hdf : ds.df = some df) (hpr : ds.alreadyProcessed = false) :
    (preprocessData interp ds).2
      = raisesIn (preprocessWrites interp (computeMetadata df) ds.GRID_SIZE
          ds.sliceInterptTol ds.numSlices df) := by
  rw [preprocessData_eq interp ds df hdf hpr]

theorem lastWrite_map_planeWrites_other (interp : Interp) (md : Metadata) (G : ℕ)
    (tolFrac : ℚ) (S : ℕ) (df : DataFrame) (P : Plane) (k : CacheKey)
    (h : ∀ j : ℕ, k ≠ CacheKey.slice P j) :
    lastWrite ((planeWrites interp md G tolFrac S df P).map
      (fun w => (w.1, writeOf w.2))) k = Option.none := by
  apply lastWrite_eq_none_of
  intro w hw
  simp only [planeWrites, List.map_map, List.mem_map, List.mem_range] at hw
  obtain ⟨j, _, rfl⟩ := hw
  exact fun hk => h j hk.symm

theorem lastWrite_map_lineWrites_slice (md : Metadata) (G : ℕ) (df : DataFrame)
    (P : Plane) (i : ℕ) :
    lastWrite ((lineWrites md G df).map (fun w => (w.1, writeOf w.2)))
      (CacheKey.slice P i) = Option.none := by
  apply lastWrite_eq_none_of
  intro w hw
  simp only [lineWrites, List.map_map, List.mem_map] at hw
  obtain ⟨a, _, rfl⟩ := hw
  simp

theorem lastWrite_map_planeWrites_self (interp : Interp) (md : Metadata) (G : ℕ)
    (tolFrac : ℚ) (S : ℕ) (df : DataFrame) (P : Plane) (i : ℕ) :
    lastWrite ((planeWrites interp md G tolFrac S df P).map
      (fun w => (w.1, writeOf w.2))) (CacheKey.slice P i)
      = if i < S then
          writeOf (Except.map (Option.map Artifact.slice)
            (processSlice interp md G tolFrac df P ((slicePositions md P S).getD i 0)))
        else Option.none := by
  rw [planeWrites, List.map_map]
  exact lastWrite_range_map S (fun j => CacheKey.slice P j)
    (fun j => writeOf (Except.map (Option.map Artifact.slice)
      (processSlice interp md G tolFrac df P ((slicePositions md P S).getD j 0))))
    (fun a b h => by injection h) i

theorem lastWrite_map_lineWrites_self (md : Metadata) (G : ℕ) (df : DataFrame)
    (a : Axis) :
    lastWrite ((lineWrites md G df).map (fun w => (w.1, writeOf w.2)))
      (CacheKey.line a)
      = some (Artifact.line (processLineAxis md G df a)) := by
  cases a <;> simp [lineWrites, lastWrite, writeOf]

theorem lastWrite_preprocessWrites_slice (interp : Interp) (md : Metadata) (G : ℕ)
    (tolFrac : ℚ) (S : ℕ) (df : DataFrame)
    (hnr : raisesIn (preprocessWrites interp md G tolFrac S df) = false)
    (P : Plane) (i : ℕ) :
    lastWrite (okPrefix (preprocessWrites interp md G tolFrac S df))
      (CacheKey.slice P i)
      = if i < S then
          writeOf (Except.map (Option.map Artifact.slice)
            (processSlice interp md G tolFrac df P ((slicePositions md P S).getD i 0)))
        else Option.none := by
  rw [okPrefix_eq_map _ hnr, preprocessWrites, List.map_cons, List.map_append,
    List.map_append, List.map_append]
  have hline := lastWrite_map_lineWrites_slice md G df P i
  have hself := lastWrite_map_planeWrites_self interp md G tolFrac S df P i
  cases P with
  | XY =>
    have hYZ := lastWrite_map_planeWrites_other interp md G tolFrac S df Plane.YZ
      (CacheKey.slice Plane.XY i) (fun j h => by simp at h)
    have hXZ := lastWrite_map_planeWrites_other interp md G tolFrac S df Plane.XZ
      (CacheKey.slice Plane.XY i) (fun j h => by simp at h)
    rw [lastWrite, lastWrite_append, lastWrite_append, lastWrite_append,
      hline, hXZ, hYZ, hself]
    cases h : (if i < S then
        writeOf (Except.map (Option.map Artifact.slice)
          (processSlice interp md G tolFrac df Plane.XY
            ((slicePositions md Plane.XY S).getD i 0)))
        else Option.none) <;> simp
  | YZ =>
    have hXY := lastWrite_map_planeWrites_other interp md G tolFrac S df Plane.XY
      (CacheKey.slice Plane.YZ i) (fun j h => by simp at h)
    have hXZ := lastWrite_map_planeWrites_other interp md G tolFrac S df Plane.XZ
      (CacheKey.slice Plane.YZ i) (fun j h => by simp at h)
    rw [lastWrite, lastWrite_append, lastWrite_append, lastWrite_append,
      hline, hXZ, hself, hXY]
    cases h : (if i < S then
        writeOf (Except.map (Option.map Artifact.slice)
          (processSlice interp md G tolFrac df Plane.YZ
            ((slicePositions md Plane.YZ S).getD i 0)))
        else Option.none) <;> simp
  | XZ =>
    have hXY := lastWrite_map_planeWrites_other interp md G tolFrac S df Plane.XY
      (CacheKey.slice Plane.XZ i) (fun j h => by simp at h)
    have hYZ := lastWrite_map_planeWrites_other interp md G tolFrac S df Plane.YZ
      (CacheKey.slice Plane.XZ i) (fun j h => by simp at h)
    rw [lastWrite, lastWrite_append, lastWrite_append, lastWrite_append,
      hline, hself, hYZ, hXY]
    cases h : (if i < S then
        writeOf (Except.map (Option.map Artifact.slice)
          (processSlice interp md G tolFrac df Plane.XZ
            ((slicePositions md Plane.XZ S).getD i 0)))
        else Option.none) <;> simp

theorem lastWrite_preprocessWrites_line (interp : Interp) (md : Metadata) (G : ℕ)
    (tolFrac : ℚ) (S : ℕ) (df : DataFrame)
    (hnr : raisesIn (preprocessWrites interp md G tolFrac S df) = false) (a : Axis) :
    lastWrite (okPrefix (preprocessWrites interp md G tolFrac S df)) (CacheKey.line a)
      = some (Artifact.line (processLineAxis md G df a)) := by
  rw [okPrefix_eq_map _ hnr, preprocessWrites, List.map_cons, List.map_append,
    List.map_append, List.map_append]
  have h1 := lastWrite_map_planeWrites_other interp md G tolFrac S df Plane.XY
    (CacheKey.line a) (fun j h => by simp at h)
  have h2 := lastWrite_map_planeWrites_other interp md G tolFrac S df Plane.YZ
    (CacheKey.line a) (fun j h => by simp at h)
  have h3 := lastWrite_map_planeWrites_other interp md G tolFrac S df Plane.XZ
    (CacheKey.line a) (fun j h => by simp at h)
  have hl := lastWrite_map_lineWrites_self md G df a
  rw [lastWrite, lastWrite_append, lastWrite_append, lastWrite_append,
    hl, h1, h2, h3]

/-- The artifact readable at a slice key after a preprocessing run that
started from an empty artifact store and completed without raising. -/
theorem preprocess_get_slice (interp : Interp) (ds : DataStore) (df : DataFrame)
    (hdf : ds.df = some df) (hpr : ds.alreadyProcessed = false)
    (hc : ds.cache = []) (hnr : (preprocessData interp ds).2 = false)
    (P : Plane) (i : ℕ) :
    Cache.get (preprocessData interp ds).1.cache (CacheKey.slice P i)
      = if i < ds.numSlices then
          writeOf (Except.map (Option.map Artifact.slice)
            (processSlice interp (computeMetadata df) ds.GRID_SIZE ds.sliceInterptTol
              df P ((slicePositions (computeMetadata df) P ds.numSlices).getD i 0)))
        else Option.none := by
  have hnr2 : raisesIn (preprocessWrites interp (computeMetadata df) ds.GRID_SIZE
      ds.sliceInterptTol ds.numSlices df) = false := by
    rw [preprocessData_raised interp ds df hdf hpr] at hnr
    exact hnr
  rw [preprocessData_eq interp ds df hdf hpr]
  show Cache.get (applyWrites ds.cache _) _ = _
  rw [applyWrites_get, lastWrite_preprocessWrites_slice interp (computeMetadata df)
    ds.GRID_SIZE ds.sliceInterptTol ds.numSlices df hnr2 P i, hc]
  by_cases hi : i < ds.numSlices
  · rw [if_pos hi]
    cases writeOf (Except.map (Option.map Artifact.slice)
      (processSlice interp (computeMetadata df) ds.GRID_SIZE ds.sliceInterptTol
        df P ((slicePositions (computeMetadata df) P ds.numSlices).getD i 0))) <;>
      simp [Cache.get]
  · rw [if_neg hi]
    simp [Cache.get]

/-- The artifact readable at a line key after a preprocessing run that
completed without raising. -/
theorem preprocess_get_line (interp : Interp) (ds : DataStore) (df : DataFrame)
    (hdf : ds.df = some df) (hpr : ds.alreadyProcessed = false)
    (hnr : (preprocessData interp ds).2 = false) (a : Axis) :
    Cache.get (preprocessData interp ds).1.cache (CacheKey.line a)
      = some (Artifact.line (processLineAxis (computeMetadata df) ds.GRID_SIZE df a)) := by
  have hnr2 : raisesIn (preprocessWrites interp (computeMetadata df) ds.GRID_SIZE
      ds.sliceInterptTol ds.numSlices df) = false := by
    rw [preprocessData_raised interp ds df hdf hpr] at hnr
    exact hnr
  rw [preprocessData_eq interp ds df hdf hpr]
  show Cache.get (applyWrites ds.cache _) _ = _
  rw [applyWrites_get, lastWrite_preprocessWrites_line interp (computeMetadata df)
    ds.GRID_SIZE ds.sliceInterptTol ds.numSlices df hnr2 a]

theorem planeWrites_mem_key (interp : Interp) (md : Metadata) (G : ℕ) (tolFrac : ℚ)
    (S : ℕ) (df : DataFrame) (P0 : Plane) (w : CacheKey × Except Unit (Option Artifact))
    (hw : w ∈ planeWrites interp md G tolFrac S df P0) (P : Plane) (i : ℕ)
    (hk : w.1 = CacheKey.slice P i) :
    w.2 = Except.map (Option.map Artifact.slice)
      (processSlice interp md G tolFrac df P ((slicePositions md P S).getD i 0)) := by
  simp only [planeWrites, List.mem_map, List.mem_range] at hw
  obtain ⟨j, hj, rfl⟩ := hw
  have hk0 : CacheKey.slice P0 j = CacheKey.slice P i := hk
  injection hk0 with h1 h2
  subst h1
  subst h2
  rfl

theorem lineWrites_mem_key (md : Metadata) (G : ℕ) (df : DataFrame)
    (w : CacheKey × Except Unit (Option Artifact)) (hw : w ∈ lineWrites md G df) :
    ∃ a : Axis, w.1 = CacheKey.line a := by
  simp only [lineWrites, List.mem_map] at hw
  obtain ⟨a, _, rfl⟩ := hw
  exact ⟨a, rfl⟩

/-- Provenance of a readable slice artifact: whether or not the run
raised later, an artifact readable at a slice key (starting from an
empty store) is exactly the one its own slice computation produced. -/
theorem preprocess_get_slice_some (interp : Interp) (ds : DataStore) (df : DataFrame)
    (hdf : ds.df = some df) (hpr : ds.alreadyProcessed = false)
    (hc : ds.cache = []) (P : Plane) (i : ℕ) (a : Artifact)
    (hs : Cache.get (preprocessData interp ds).1.cache (CacheKey.slice P i) = some a) :
    Except.map (Option.map Artifact.slice)
      (processSlice interp (computeMetadata df) ds.GRID_SIZE ds.sliceInterptTol df P
        ((slicePositions (computeMetadata df) P ds.numSlices).getD i 0))
      = Except.ok (some a) := by
  rw [preprocessData_eq interp ds df hdf hpr] at hs
  have hs0 : Cache.get (applyWrites ds.cache
      (okPrefix (preprocessWrites interp (computeMetadata df) ds.GRID_SIZE
        ds.sliceInterptTol ds.numSlices df))) (CacheKey.slice P i) = some a := hs
  rw [applyWrites_get, hc] at hs0
  have hl : lastWrite (okPrefix (preprocessWrites interp (computeMetadata df)
      ds.GRID_SIZE ds.sliceInterptTol ds.numSlices df)) (CacheKey.slice P i)
      = some a := by
    cases h0 : lastWrite (okPrefix (preprocessWrites interp (computeMetadata df)
        ds.GRID_SIZE ds.sliceInterptTol ds.numSlices df)) (CacheKey.slice P i) with
    | some b =>
      rw [h0] at hs0
      have hb : b = a := by simpa using hs0
      rw [hb]
    | none =>
      rw [h0] at hs0
      exact absurd hs0 (by simp [Cache.get])
  obtain ⟨w, hw, hk, hv⟩ := lastWrite_okPrefix_some _ _ _ hl
  rcases List.mem_cons.mp hw with h1 | h1
  · subst h1
    exact absurd hk (by simp)
  rcases List.mem_append.mp h1 with h2 | h2
  · rw [← hv]
    exact (planeWrites_mem_key interp (computeMetadata df) ds.GRID_SIZE
      ds.sliceInterptTol ds.numSlices df Plane.XY w h2 P i hk).symm
  rcases List.mem_append.mp h2 with h3 | h3
  · rw [← hv]
    exact (planeWrites_mem_key interp (computeMetadata df) ds.GRID_SIZE
      ds.sliceInterptTol ds.numSlices df Plane.YZ w h3 P i hk).symm
  rcases List.mem_append.mp h3 with h4 | h4
  · rw [← hv]
    exact (planeWrites_mem_key interp (computeMetadata df) ds.GRID_SIZE
      ds.sliceInterptTol ds.numSlices df Plane.XZ w h4 P i hk).symm
  · obtain ⟨a0, ha0⟩ := lineWrites_mem_key (computeMetadata df) ds.GRID_SIZE df w h4
    rw [ha0] at hk
    exact absurd hk (by simp)

/-! ### Slice characterization -/

/-- The grid build of a plane family. -/
def buildSlice (interp : Interp) (md : Metadata) (G : ℕ) (P : Plane) (v : ℚ)
    (sliceRows : List Row) : SliceData :=
  match P with
  | Plane.XY => buildXYSlice interp md G v sliceRows
  | Plane.YZ => buildYZSlice interp md G v sliceRows
  | Plane.XZ => buildXZSlice interp md G v sliceRows

/-- The XY slice at position index 0 produced by preprocessing `df1`. -/
def sliceW : SliceData :=
  buildSlice interpQ (computeMetadata df1) dsW.GRID_SIZE Plane.XY
    ((slicePositions (computeMetadata df1) Plane.XY dsW.numSlices).getD 0 0)
    (sliceSelect (computeMetadata df1) dsW.sliceInterptTol df1 Plane.XY
      ((slicePositions (computeMetadata df1) Plane.XY dsW.numSlices).getD 0 0))

theorem sliceSelect_eq_filter (md : Metadata) (tolFrac : ℚ) (df : DataFrame)
    (P : Plane) (v : ℚ) :
    sliceSelect md tolFrac df P v
      = df.rows.filter
          (fun r => |sliceCoord P r - v|
            < ((fixedRange md P).2 - (fixedRange md P).1) * tolFrac) := by
  cases P <;> rfl

theorem processSlice_eq (interp : Interp) (md : Metadata) (G : ℕ) (tolFrac : ℚ)
    (df : DataFrame) (P : Plane) (v : ℚ) :
    processSlice interp md G tolFrac df P v
      = if (sliceSelect md tolFrac df P v).length < 10 then Except.ok Option.none
        else if !md.varNames.isEmpty
            && !interp.ok (slicePts P (sliceSelect md tolFrac df P v)) then
          Except.error ()
        else Except.ok (some (buildSlice interp md G P v (sliceSelect md tolFrac df P v))) := by
  cases P <;> rfl

theorem buildSlice_fixedVal (interp : Interp) (md : Metadata) (G : ℕ) (P : Plane)
    (v : ℚ) (rows : List Row) : (buildSlice interp md G P v rows).fixedVal = v := by
  cases P <;> rfl

theorem buildSlice_a1 (interp : Interp) (md : Metadata) (G : ℕ) (P : Plane)
    (v : ℚ) (rows : List Row) :
    (buildSlice interp md G P v rows).a1
      = linspace (freeRange1 md P).1 (freeRange1 md P).2 G := by
  cases P <;> rfl

theorem buildSlice_a2 (interp : Interp) (md : Metadata) (G : ℕ) (P : Plane)
    (v : ℚ) (rows : List Row) :
    (buildSlice interp md G P v rows).a2
      = linspace (freeRange2 md P).1 (freeRange2 md P).2 G := by
  cases P <;> rfl

theorem buildSlice_gridShape (interp : Interp) (md : Metadata) (G : ℕ) (P : Plane)
    (v : ℚ) (rows : List Row) : (buildSlice interp md G P v rows).gridShape = (G, G) := by
  cases P <;> rfl

theorem meshNodes_length (as bs : List ℚ) (G : ℕ) : (meshNodes as bs G).length = G * G := by
  rw [meshNodes, List.length_map, List.length_range]

theorem buildSlice_grids_length (interp : Interp) (md : Metadata) (G : ℕ) (P : Plane)
    (v : ℚ) (rows : List Row) :
    (buildSlice interp md G P v rows).grids.length = md.varNames.length := by
  cases P <;> simp [buildSlice, buildXYSlice, buildYZSlice, buildXZSlice]

theorem buildSlice_grid_sizes (interp : Interp) (md : Metadata) (G : ℕ) (P : Plane)
    (v : ℚ) (rows : List Row) (g : String × List (Option ℚ))
    (hg : g ∈ (buildSlice interp md G P v rows).grids) : g.2.length = G * G := by
  cases P <;>
  · simp only [buildSlice, buildXYSlice, buildYZSlice, buildXZSlice, List.mem_map,
      List.mem_range] at hg
    obtain ⟨vi, _, rfl⟩ := hg
    simp [meshNodes_length]

theorem map_getD_range {α : Type} (l : List α) (d : α) :
    (List.range l.length).map (fun i => l.getD i d) = l := by
  induction l with
  | nil => rfl
  | cons x xs ih =>
    rw [List.length_cons, List.range_succ_eq_map, List.map_cons, List.map_map]
    show x :: (List.range xs.length).map (fun i => xs.getD i d) = x :: xs
    rw [ih]

theorem buildSlice_grid_names (interp : Interp) (md : Metadata) (G : ℕ) (P : Plane)
    (v : ℚ) (rows : List Row) :
    (buildSlice interp md G P v rows).grids.map Prod.fst = md.varNames := by
  cases P <;>
  · show ((List.range md.varNames.length).map _).map Prod.fst = _
    rw [List.map_map]
    exact map_getD_range md.varNames ("")

/-! ### Degeneracy and bounds lemmas -/

theorem collinearB_of_const_fst (pts : List (ℚ × ℚ))
    (h : ∀ p ∈ pts, ∀ q ∈ pts, p.1 = q.1) : collinearB pts = true := by
  cases pts with
  | nil => rfl
  | cons p0 rest =>
    rw [collinearB]
    cases hf : rest.find? (fun p => decide (p ≠ p0)) with
    | none => simp
    | some p1 =>
      have hp1 : p1 ∈ rest := List.mem_of_find?_eq_some hf
      simp only [List.all_eq_true, decide_eq_true_eq]
      intro p hp
      have h1 : p1.1 = p0.1 :=
        h p1 (List.mem_cons_of_mem _ hp1) p0 (List.mem_cons_self _ _)
      have h2 : p.1 = p0.1 :=
        h p (List.mem_cons_of_mem _ hp) p0 (List.mem_cons_self _ _)
      rw [h1, h2]
      ring

theorem collinearB_of_const_snd (pts : List (ℚ × ℚ))
    (h : ∀ p ∈ pts, ∀ q ∈ pts, p.2 = q.2) : collinearB pts = true := by
  cases pts with
  | nil => rfl
  | cons p0 rest =>
    rw [collinearB]
    cases hf : rest.find? (fun p => decide (p ≠ p0)) with
    | none => simp
    | some p1 =>
      have hp1 : p1 ∈ rest := List.mem_of_find?_eq_some hf
      simp only [List.all_eq_true, decide_eq_true_eq]
      intro p hp
      have h1 : p1.2 = p0.2 :=
        h p1 (List.mem_cons_of_mem _ hp1) p0 (List.mem_cons_self _ _)
      have h2 : p.2 = p0.2 :=
        h p (List.mem_cons_of_mem _ hp) p0 (List.mem_cons_self _ _)
      rw [h1, h2]
      ring

theorem exists_fst_ne_of_not_collinear (pts : List (ℚ × ℚ))
    (h : collinearB pts = false) : ∃ p ∈ pts, ∃ q ∈ pts, p.1 ≠ q.1 := by
  by_contra hc
  push_neg at hc
  rw [collinearB_of_const_fst pts hc] at h
  exact absurd h (by simp)

theorem exists_snd_ne_of_not_collinear (pts : List (ℚ × ℚ))
    (h : collinearB pts = false) : ∃ p ∈ pts, ∃ q ∈ pts, p.2 ≠ q.2 := by
  by_contra hc
  push_neg at hc
  rw [collinearB_of_const_snd pts hc] at h
  exact absurd h (by simp)

theorem foldl_min_le_of_mem (xs : List ℚ) (x0 a : ℚ) (ha : a ∈ xs) :
    xs.foldl min x0 ≤ a := by
  induction xs generalizing x0 with
  | nil => cases ha
  | cons y ys ih =>
    rcases List.mem_cons.mp ha with h | h
    · subst h
      exact le_trans (foldl_min_le ys (min x0 a)) (min_le_right x0 a)
    · exact ih (min x0 y) h

theorem le_foldl_max_of_mem (xs : List ℚ) (x0 a : ℚ) (ha : a ∈ xs) :
    a ≤ xs.foldl max x0 := by
  induction xs generalizing x0 with
  | nil => cases ha
  | cons y ys ih =>
    rcases List.mem_cons.mp ha with h | h
    · subst h
      exact le_trans (le_max_right x0 a) (le_foldl_max ys (max x0 a))
    · exact ih (max x0 y) h

theorem colMin_le_of_mem (l : List ℚ) (a : ℚ) (ha : a ∈ l) : colMin l ≤ a := by
  cases l with
  | nil => cases ha
  | cons x xs =>
    rcases List.mem_cons.mp ha with h | h
    · subst h
      exact foldl_min_le xs a
    · exact foldl_min_le_of_mem xs x a h

theorem le_colMax_of_mem (l : List ℚ) (a : ℚ) (ha : a ∈ l) : a ≤ colMax l := by
  cases l with
  | nil => cases ha
  | cons x xs =>
    rcases List.mem_cons.mp ha with h | h
    · subst h
      exact le_foldl_max xs a
    · exact le_foldl_max_of_mem xs x a h

theorem colMin_lt_colMax_of_two (l : List ℚ) (a b : ℚ) (ha : a ∈ l) (hb : b ∈ l)
    (hab : a ≠ b) : colMin l < colMax l := by
  rcases lt_or_gt_of_ne hab with h | h
  · exact lt_of_le_of_lt (colMin_le_of_mem l a ha)
      (lt_of_lt_of_le h (le_colMax_of_mem l b hb))
  · exact lt_of_le_of_lt (colMin_le_of_mem l b hb)
      (lt_of_lt_of_le h (le_colMax_of_mem l a ha))

/-- The first free-axis coordinate of a row for a plane family. -/
def freeCoord1 (P : Plane) (r : Row) : ℚ :=
  match P with
  | Plane.XY => r.x
  | Plane.YZ => r.y
  | Plane.XZ => r.x

/-- The second free-axis coordinate of a row for a plane family. -/
def freeCoord2 (P : Plane) (r : Row) : ℚ :=
  match P with
  | Plane.XY => r.y
  | Plane.YZ => r.z
  | Plane.XZ => r.z

theorem slicePts_eq (P : Plane) (rows : List Row) :
    slicePts P rows = rows.map (fun r => (freeCoord1 P r, freeCoord2 P r)) := by
  cases P <;> rfl

theorem freeRange1_eq (df : DataFrame) (P : Plane) :
    freeRange1 (computeMetadata df) P
      = (colMin (df.rows.map (freeCoord1 P)), colMax (df.rows.map (freeCoord1 P))) := by
  cases P <;> rfl

theorem freeRange2_eq (df : DataFrame) (P : Plane) :
    freeRange2 (computeMetadata df) P
      = (colMin (df.rows.map (freeCoord2 P)), colMax (df.rows.map (freeCoord2 P))) := by
  cases P <;> rfl

theorem processLineAxis_position (md : Metadata) (G : ℕ) (df : DataFrame) (a : Axis) :
    (processLineAxis md G df a).position
      = linspace (lineRange md a).1 (lineRange md a).2 G := rfl

theorem processLineAxis_vals_length (md : Metadata) (G : ℕ) (df : DataFrame) (a : Axis) :
    (processLineAxis md G df a).vals.length = md.varNames.length := by
  show ((List.range md.varNames.length).map _).length = _
  rw [List.length_map, List.length_range]

theorem processLineAxis_value (md : Metadata) (G : ℕ) (df : DataFrame) (a : Axis)
    (vi : ℕ) (hvi : vi < md.varNames.length) (j : ℕ) (hj : j < G) :
    (((processLineAxis md G df a).vals.getD vi ((""), [])).2).getD j Option.none
      = (if (df.rows.filter (fun r =>
            |lineCoord a r - (linspace (lineRange md a).1 (lineRange md a).2 G).getD j 0|
            < ((linspace (lineRange md a).1 (lineRange md a).2 G).getD 1 0
                - (linspace (lineRange md a).1 (lineRange md a).2 G).getD 0 0)
              * (11 / 10))).isEmpty
         then Option.none
         else some (mean ((df.rows.filter (fun r =>
            |lineCoord a r - (linspace (lineRange md a).1 (lineRange md a).2 G).getD j 0|
            < ((linspace (lineRange md a).1 (lineRange md a).2 G).getD 1 0
                - (linspace (lineRange md a).1 (lineRange md a).2 G).getD 0 0)
              * (11 / 10))).map (fun r => r.vals.getD vi 0)))) := by
  have h1 : (processLineAxis md G df a).vals.getD vi ((""), [])
      = (md.varNames.getD vi (""),
         (linspace (lineRange md a).1 (lineRange md a).2 G).map (fun pos =>
           let sel := df.rows.filter (fun r =>
             |lineCoord a r - pos|
             < ((linspace (lineRange md a).1 (lineRange md a).2 G).getD 1 0
                 - (linspace (lineRange md a).1 (lineRange md a).2 G).getD 0 0)
               * (11 / 10))
           if sel.isEmpty then Option.none
           else some (mean (sel.map (fun r => r.vals.getD vi 0))))) := by
    show ((List.range md.varNames.length).map _).getD vi ((""), []) = _
    rw [getD_map_of_lt _ (List.range md.varNames.length) vi (by simpa using hvi)
      0 ((""), [])]
    rw [range_getD _ _ hvi]
  rw [h1]
  have hlen : j < (linspace (lineRange md a).1 (lineRange md a).2 G).length := by
    rw [linspace_length]
    exact hj
  rw [getD_map_of_lt _ _ j hlen 0 Option.none]

/-! ### Claim theorems -/

theorem planeWrites_entry_mem (interp : Interp) (md : Metadata) (G : ℕ) (tolFrac : ℚ)
    (S : ℕ) (df : DataFrame) (P : Plane) (i : ℕ) (hi : i < S) :
    (CacheKey.slice P i,
      Except.map (Option.map Artifact.slice)
        (processSlice interp md G tolFrac df P ((slicePositions md P S).getD i 0)))
      ∈ planeWrites interp md G tolFrac S df P := by
  simp only [planeWrites, List.mem_map, List.mem_range]
  exact ⟨i, hi, rfl⟩

theorem planeWrites_sub_preprocessWrites (interp : Interp) (md : Metadata) (G : ℕ)
    (tolFrac : ℚ) (S : ℕ) (df : DataFrame) (P : Plane)
    (w : CacheKey × Except Unit (Option Artifact))
    (hw : w ∈ planeWrites interp md G tolFrac S df P) :
    w ∈ preprocessWrites interp md G tolFrac S df := by
  cases P with
  | XY => exact List.mem_cons_of_mem _ (List.mem_append_left _ hw)
  | YZ =>
    exact List.mem_cons_of_mem _ (List.mem_append_right _ (List.mem_append_left _ hw))
  | XZ =>
    exact List.mem_cons_of_mem _
      (List.mem_append_right _ (List.mem_append_right _ (List.mem_append_left _ hw)))

/-- In a run that completes without raising, every in-range slice
computation returned without raising. -/
theorem preprocess_entry_ok (interp : Interp) (ds : DataStore) (df : DataFrame)
    (hdf : ds.df = some df) (hpr : ds.alreadyProcessed = false)
    (hnr : (preprocessData interp ds).2 = false) (P : Plane) (i : ℕ)
    (hi : i < ds.numSlices) :
    isOkB (Except.map (Option.map Artifact.slice)
      (processSlice interp (computeMetadata df) ds.GRID_SIZE ds.sliceInterptTol df P
        ((slicePositions (computeMetadata df) P ds.numSlices).getD i 0))) = true := by
  have hnr2 : raisesIn (preprocessWrites interp (computeMetadata df) ds.GRID_SIZE
      ds.sliceInterptTol ds.numSlices df) = false := by
    rw [preprocessData_raised interp ds df hdf hpr] at hnr
    exact hnr
  exact (raisesIn_eq_false_iff _).mp hnr2 _
    (planeWrites_sub_preprocessWrites interp (computeMetadata df) ds.GRID_SIZE
      ds.sliceInterptTol ds.numSlices df P _
      (planeWrites_entry_mem interp (computeMetadata df) ds.GRID_SIZE
        ds.sliceInterptTol ds.numSlices df P i hi))

set_option maxRecDepth 400000 in
/-- C3 counterexample: on `dfC`, the XY slice at index 0 selects ten
points — at or above the 10-point threshold — yet after the load no
artifact exists at the key and the load raised: the ten selected points
are collinear, so `griddata` raises `QhullError` and preprocessing
aborts instead of producing the claimed artifact. -/
theorem slice_threshold_artifact_cex :
    10 ≤ (sliceSelect (computeMetadata dfC) ds0.sliceInterptTol dfC Plane.XY
        ((slicePositions (computeMetadata dfC) Plane.XY ds0.numSlices).getD 0 0)).length
    ∧ (setDataframe interpQ ds0 dfC).2 = true
    ∧ Cache.get (setDataframe interpQ ds0 dfC).1.cache (CacheKey.slice Plane.XY 0)
        = Option.none := by
  refine ⟨?_, ?_, ?_⟩ <;> with_unfolding_all decide

/-- C3 amended: after preprocessing from an empty artifact store, when
the run completes without raising, for every plane family and every
slice index below the slice count: there is no artifact at the key
exactly when fewer than 10 points lie in that slice's tolerance window
(absence, not an error), and with 10 or more points an artifact exists
there carrying, for every variable, one flattened grid of the configured
G×G shape.  When a ≥10-point selection is degenerate, `griddata` instead
raises and the run aborts with no artifact at that key. -/
theorem slice_threshold_artifact (interp : Interp) (ds : DataStore) (df : DataFrame)
    (hdf : ds.df = some df) (hpr : ds.alreadyProcessed = false)
    (hc : ds.cache = []) (hnr : (preprocessData interp ds).2 = false)
    (P : Plane) (i : ℕ) (hi : i < ds.numSlices) :
    (Cache.get (preprocessData interp ds).1.cache (CacheKey.slice P i) = Option.none
      ↔ (sliceSelect (computeMetadata df) ds.sliceInterptTol df P
          ((slicePositions (computeMetadata df) P ds.numSlices).getD i 0)).length < 10)
    ∧ (10 ≤ (sliceSelect (computeMetadata df) ds.sliceInterptTol df P
          ((slicePositions (computeMetadata df) P ds.numSlices).getD i 0)).length →
        ∃ s : SliceData,
          Cache.get (preprocessData interp ds).1.cache (CacheKey.slice P i)
            = some (Artifact.slice s)
          ∧ s.gridShape = (ds.GRID_SIZE, ds.GRID_SIZE)
          ∧ s.grids.map Prod.fst = (computeMetadata df).varNames
          ∧ ∀ g ∈ s.grids, g.2.length = ds.GRID_SIZE * ds.GRID_SIZE) := by
  have hok := preprocess_entry_ok interp ds df hdf hpr hnr P i hi
  rw [preprocess_get_slice interp ds df hdf hpr hc hnr P i, if_pos hi]
  rw [processSlice_eq] at hok ⊢
  by_cases hsel : (sliceSelect (computeMetadata df) ds.sliceInterptTol df P
      ((slicePositions (computeMetadata df) P ds.numSlices).getD i 0)).length < 10
  · rw [if_pos hsel]
    refine ⟨⟨fun _ => hsel, fun _ => rfl⟩, fun h10 => absurd h10 (by omega)⟩
  · rw [if_neg hsel] at hok ⊢
    by_cases hg : (!(computeMetadata df).varNames.isEmpty
        && !interp.ok (slicePts P (sliceSelect (computeMetadata df) ds.sliceInterptTol
          df P ((slicePositions (computeMetadata df) P ds.numSlices).getD i 0)))) = true
    · rw [if_pos hg] at hok
      exact absurd hok (by simp [Except.map, isOkB])
    · rw [if_neg hg]
      refine ⟨⟨fun h => absurd h (by simp [Except.map, writeOf]),
        fun h => absurd h hsel⟩, fun _ => ?_⟩
      exact ⟨buildSlice interp (computeMetadata df) ds.GRID_SIZE P
          ((slicePositions (computeMetadata df) P ds.numSlices).getD i 0)
          (sliceSelect (computeMetadata df) ds.sliceInterptTol df P
            ((slicePositions (computeMetadata df) P ds.numSlices).getD i 0)),
        rfl, buildSlice_gridShape _ _ _ _ _ _, buildSlice_grid_names _ _ _ _ _ _,
        fun g hg0 => buildSlice_grid_sizes _ _ _ _ _ _ g hg0⟩

set_option maxRecDepth 400000 in
/-- C3 witness: the store `dsW` (11 points in general position, 2 slices,
2x2 grids) at plane XY, index 0: the run completes, ten points lie in
the window, and the artifact with one 2x2 grid per variable exists. -/
theorem slice_threshold_artifact_witness :
    (dsW.df = some df1 ∧ dsW.alreadyProcessed = false ∧ dsW.cache = []
      ∧ (preprocessData interpQ dsW).2 = false ∧ 0 < dsW.numSlices)
    ∧ ((Cache.get (preprocessData interpQ dsW).1.cache (CacheKey.slice Plane.XY 0)
          = Option.none
        ↔ (sliceSelect (computeMetadata df1) dsW.sliceInterptTol df1 Plane.XY
            ((slicePositions (computeMetadata df1) Plane.XY dsW.numSlices).getD 0 0)).length
            < 10)
      ∧ (10 ≤ (sliceSelect (computeMetadata df1) dsW.sliceInterptTol df1 Plane.XY
            ((slicePositions (computeMetadata df1) Plane.XY dsW.numSlices).getD 0 0)).length →
          ∃ s : SliceData,
            Cache.get (preprocessData interpQ dsW).1.cache (CacheKey.slice Plane.XY 0)
              = some (Artifact.slice s)
            ∧ s.gridShape = (dsW.GRID_SIZE, dsW.GRID_SIZE)
            ∧ s.grids.map Prod.fst = (computeMetadata df1).varNames
            ∧ ∀ g ∈ s.grids, g.2.length = dsW.GRID_SIZE * dsW.GRID_SIZE)) :=
  ⟨⟨rfl, rfl, rfl, by with_unfolding_all decide, by decide⟩,
   slice_threshold_artifact interpQ dsW df1 rfl rfl rfl
     (by with_unfolding_all decide) Plane.XY 0 (by decide)⟩

/-- C4: with the default tolerance fraction 0.01, slice `i` of a plane
family is taken at element `i` of `linspace(bound_min, bound_max, S)` on
the family's fixed axis — in a completed run the artifact readable at
key `(P, i)` is exactly the write of the slice computed at that value,
and a produced slice records it as its fixed value — and the selected
subset is exactly the points satisfying
`|point.fixed_axis - fixed_value| < (bound_max - bound_min) * 0.01`. -/
theorem slice_position_window (interp : Interp) (ds : DataStore) (df : DataFrame)
    (hdf : ds.df = some df) (hpr : ds.alreadyProcessed = false)
    (hc : ds.cache = []) (hnr : (preprocessData interp ds).2 = false)
    (htol : ds.sliceInterptTol = 1 / 100)
    (P : Plane) (i : ℕ) (hi : i < ds.numSlices) :
    Cache.get (preprocessData interp ds).1.cache (CacheKey.slice P i)
      = writeOf (Except.map (Option.map Artifact.slice)
          (processSlice interp (computeMetadata df) ds.GRID_SIZE ds.sliceInterptTol df P
            ((linspace (fixedRange (computeMetadata df) P).1
              (fixedRange (computeMetadata df) P).2 ds.numSlices).getD i 0)))
    ∧ sliceSelect (computeMetadata df) ds.sliceInterptTol df P
        ((linspace (fixedRange (computeMetadata df) P).1
          (fixedRange (computeMetadata df) P).2 ds.numSlices).getD i 0)
      = df.rows.filter (fun r =>
          |sliceCoord P r - (linspace (fixedRange (computeMetadata df) P).1
            (fixedRange (computeMetadata df) P).2 ds.numSlices).getD i 0|
          < ((fixedRange (computeMetadata df) P).2
              - (fixedRange (computeMetadata df) P).1) * (1 / 100))
    ∧ (∀ s : SliceData,
        processSlice interp (computeMetadata df) ds.GRID_SIZE ds.sliceInterptTol df P
          ((linspace (fixedRange (computeMetadata df) P).1
            (fixedRange (computeMetadata df) P).2 ds.numSlices).getD i 0)
          = Except.ok (some s) →
        s.fixedVal = (linspace (fixedRange (computeMetadata df) P).1
          (fixedRange (computeMetadata df) P).2 ds.numSlices).getD i 0) := by
  refine ⟨?_, ?_, ?_⟩
  · rw [preprocess_get_slice interp ds df hdf hpr hc hnr P i, if_pos hi]
    rfl
  · rw [sliceSelect_eq_filter, htol]
  · intro s hs
    rw [processSlice_eq] at hs
    split at hs
    · exact absurd hs (by simp)
    · split at hs
      · exact absurd hs (by simp)
      · injection hs with hs0
        injection hs0 with hs1
        rw [← hs1, buildSlice_fixedVal]

set_option maxRecDepth 400000 in
/-- C4 witness: the store `dsW` at plane XY, index 0. -/
theorem slice_position_window_witness :
    (dsW.df = some df1 ∧ dsW.alreadyProcessed = false ∧ dsW.cache = []
      ∧ (preprocessData interpQ dsW).2 = false
      ∧ dsW.sliceInterptTol = 1 / 100 ∧ 0 < dsW.numSlices)
    ∧ (Cache.get (preprocessData interpQ dsW).1.cache (CacheKey.slice Plane.XY 0)
        = writeOf (Except.map (Option.map Artifact.slice)
            (processSlice interpQ (computeMetadata df1) dsW.GRID_SIZE
              dsW.sliceInterptTol df1 Plane.XY
              ((linspace (fixedRange (computeMetadata df1) Plane.XY).1
                (fixedRange (computeMetadata df1) Plane.XY).2 dsW.numSlices).getD 0 0)))
      ∧ sliceSelect (computeMetadata df1) dsW.sliceInterptTol df1 Plane.XY
          ((linspace (fixedRange (computeMetadata df1) Plane.XY).1
            (fixedRange (computeMetadata df1) Plane.XY).2 dsW.numSlices).getD 0 0)
        = df1.rows.filter (fun r =>
            |sliceCoord Plane.XY r - (linspace (fixedRange (computeMetadata df1) Plane.XY).1
              (fixedRange (computeMetadata df1) Plane.XY).2 dsW.numSlices).getD 0 0|
            < ((fixedRange (computeMetadata df1) Plane.XY).2
                - (fixedRange (computeMetadata df1) Plane.XY).1) * (1 / 100))
      ∧ (∀ s : SliceData,
          processSlice interpQ (computeMetadata df1) dsW.GRID_SIZE
            dsW.sliceInterptTol df1 Plane.XY
            ((linspace (fixedRange (computeMetadata df1) Plane.XY).1
              (fixedRange (computeMetadata df1) Plane.XY).2 dsW.numSlices).getD 0 0)
            = Except.ok (some s) →
          s.fixedVal = (linspace (fixedRange (computeMetadata df1) Plane.XY).1
            (fixedRange (computeMetadata df1) Plane.XY).2 dsW.numSlices).getD 0 0)) :=
  ⟨⟨rfl, rfl, rfl, by with_unfolding_all decide, rfl, by decide⟩,
   slice_position_window interpQ dsW df1 rfl rfl rfl (by with_unfolding_all decide)
     rfl Plane.XY 0 (by decide)⟩

/-- C5: in a preprocessing run that completes without raising, for every
axis and variable the persisted line profile holds, at each position `p`
of `linspace(bound_min, bound_max, G)`, NaN when no point's coordinate
lies within `bin_width = (positions[1] - positions[0]) * 1.1` of `p`, and
otherwise the arithmetic mean of the variable over exactly the points
with `|coordinate - p| < bin_width`. -/
theorem line_profile_nan_mean (interp : Interp) (ds : DataStore) (df : DataFrame)
    (hdf : ds.df = some df) (hpr : ds.alreadyProcessed = false)
    (hnr : (preprocessData interp ds).2 = false) (a : Axis) :
    ∃ L : LineData,
      Cache.get (preprocessData interp ds).1.cache (CacheKey.line a)
        = some (Artifact.line L)
      ∧ L.position = linspace (lineRange (computeMetadata df) a).1
          (lineRange (computeMetadata df) a).2 ds.GRID_SIZE
      ∧ L.vals.length = (computeMetadata df).varNames.length
      ∧ (∀ vi, vi < (computeMetadata df).varNames.length → ∀ j, j < ds.GRID_SIZE →
          ((L.vals.getD vi ((""), [])).2).getD j Option.none
            = (if (df.rows.filter (fun r =>
                  |lineCoord a r - L.position.getD j 0|
                  < (L.position.getD 1 0 - L.position.getD 0 0) * (11 / 10))).isEmpty
               then Option.none
               else some (mean ((df.rows.filter (fun r =>
                  |lineCoord a r - L.position.getD j 0|
                  < (L.position.getD 1 0 - L.position.getD 0 0) * (11 / 10))).map
                 (fun r => r.vals.getD vi 0))))) := by
  refine ⟨processLineAxis (computeMetadata df) ds.GRID_SIZE df a,
    preprocess_get_line interp ds df hdf hpr hnr a,
    processLineAxis_position _ _ _ _,
    processLineAxis_vals_length _ _ _ _, ?_⟩
  intro vi hvi j hj
  rw [processLineAxis_position]
  exact processLineAxis_value (computeMetadata df) ds.GRID_SIZE df a vi hvi j hj

set_option maxRecDepth 400000 in
/-- C5 witness: the store `dsW` on axis X; the run completes. -/
theorem line_profile_nan_mean_witness :
    (dsW.df = some df1 ∧ dsW.alreadyProcessed = false
      ∧ (preprocessData interpQ dsW).2 = false)
    ∧ (∃ L : LineData,
        Cache.get (preprocessData interpQ dsW).1.cache (CacheKey.line Axis.X)
          = some (Artifact.line L)
        ∧ L.position = linspace (lineRange (computeMetadata df1) Axis.X).1
            (lineRange (computeMetadata df1) Axis.X).2 dsW.GRID_SIZE
        ∧ L.vals.length = (computeMetadata df1).varNames.length
        ∧ (∀ vi, vi < (computeMetadata df1).varNames.length → ∀ j, j < dsW.GRID_SIZE →
            ((L.vals.getD vi ((""), [])).2).getD j Option.none
              = (if (df1.rows.filter (fun r =>
                    |lineCoord Axis.X r - L.position.getD j 0|
                    < (L.position.getD 1 0 - L.position.getD 0 0) * (11 / 10))).isEmpty
                 then Option.none
                 else some (mean ((df1.rows.filter (fun r =>
                    |lineCoord Axis.X r - L.position.getD j 0|
                    < (L.position.getD 1 0 - L.position.getD 0 0) * (11 / 10))).map
                   (fun r => r.vals.getD vi 0)))))) :=
  ⟨⟨rfl, rfl, by with_unfolding_all decide⟩,
   line_profile_nan_mean interpQ dsW df1 rfl rfl (by with_unfolding_all decide) Axis.X⟩

theorem interpQ_ok (pts : List (ℚ × ℚ)) (h : interpQ.ok pts = true) :
    collinearB pts = false := by
  have h0 : (!collinearB pts) = true := h
  simpa using h0

/-- C6: in every slice artifact the preprocessing run produces — for a
table with at least one variable column, as the input contract requires,
and under any `griddata` kernel that succeeds only on non-degenerate
point selections, as Qhull does — each of the two free-axis sample
sequences has exactly G elements, is strictly increasing, and spans
exactly [bound_min, bound_max] of its axis.  A produced slice means the
triangulation of its selected points succeeded, which rules out a
constant free-axis coordinate among them, so both free axes have
nondegenerate dataset bounds and the linspace grids are strictly
increasing. -/
theorem slice_axes_strict_span (interp : Interp) (ds : DataStore) (df : DataFrame)
    (hdf : ds.df = some df) (hpr : ds.alreadyProcessed = false) (hc : ds.cache = [])
    (hG : 2 ≤ ds.GRID_SIZE) (hvar : df.varNames ≠ [])
    (hok : ∀ pts : List (ℚ × ℚ), interp.ok pts = true → collinearB pts = false)
    (P : Plane) (i : ℕ) (s : SliceData)
    (hs : Cache.get (preprocessData interp ds).1.cache (CacheKey.slice P i)
          = some (Artifact.slice s)) :
    (s.a1.length = ds.GRID_SIZE
      ∧ s.a1.head? = some (freeRange1 (computeMetadata df) P).1
      ∧ s.a1.getLast? = some (freeRange1 (computeMetadata df) P).2
      ∧ List.Chain' (· < ·) s.a1)
    ∧ (s.a2.length = ds.GRID_SIZE
      ∧ s.a2.head? = some (freeRange2 (computeMetadata df) P).1
      ∧ s.a2.getLast? = some (freeRange2 (computeMetadata df) P).2
      ∧ List.Chain' (· < ·) s.a2) := by
  have hprov := preprocess_get_slice_some interp ds df hdf hpr hc P i _ hs
  cases he : processSlice interp (computeMetadata df) ds.GRID_SIZE ds.sliceInterptTol
      df P ((slicePositions (computeMetadata df) P ds.numSlices).getD i 0) with
  | error e =>
    rw [he] at hprov
    exact absurd hprov (by simp [Except.map])
  | ok vv =>
    rw [he] at hprov
    have hvv : Option.map Artifact.slice vv = some (Artifact.slice s) := by
      simpa [Except.map] using hprov
    cases vv with
    | none => exact absurd hvv (by simp)
    | some s0 =>
      have hs0 : s0 = s := by
        simp only [Option.map_some'] at hvv
        injection hvv with h1
        injection h1 with h2
      subst hs0
      rw [processSlice_eq] at he
      split at he
      · exact absurd he (by simp)
      · rename_i hsel
        split at he
        · exact absurd he (by simp)
        · rename_i hg
          have hiE : (computeMetadata df).varNames.isEmpty = false := by
            cases hdfv : df.varNames with
            | nil => exact absurd hdfv hvar
            | cons c cs =>
              show df.varNames.isEmpty = false
              rw [hdfv]
              rfl
          have hokpts : interp.ok (slicePts P (sliceSelect (computeMetadata df)
              ds.sliceInterptTol df P ((slicePositions (computeMetadata df) P
                ds.numSlices).getD i 0))) = true := by
            by_contra hno
            have hofalse : interp.ok (slicePts P (sliceSelect (computeMetadata df)
                ds.sliceInterptTol df P ((slicePositions (computeMetadata df) P
                  ds.numSlices).getD i 0))) = false := by
              cases hoc : interp.ok (slicePts P (sliceSelect (computeMetadata df)
                  ds.sliceInterptTol df P ((slicePositions (computeMetadata df) P
                    ds.numSlices).getD i 0))) with
              | true => exact absurd hoc hno
              | false => rfl
            apply hg
            rw [hiE, hofalse]
            rfl
          have hcol := hok _ hokpts
          obtain ⟨p, hp, q, hq, hpq⟩ := exists_fst_ne_of_not_collinear _ hcol
          rw [slicePts_eq] at hp hq
          obtain ⟨rp, hrp, rfl⟩ := List.mem_map.mp hp
          obtain ⟨rq, hrq, rfl⟩ := List.mem_map.mp hq
          have hpq1 : freeCoord1 P rp ≠ freeCoord1 P rq := hpq
          have hrp0 : rp ∈ df.rows := by
            rw [sliceSelect_eq_filter] at hrp
            exact List.mem_of_mem_filter hrp
          have hrq0 : rq ∈ df.rows := by
            rw [sliceSelect_eq_filter] at hrq
            exact List.mem_of_mem_filter hrq
          have hlt1 : (freeRange1 (computeMetadata df) P).1
              < (freeRange1 (computeMetadata df) P).2 := by
            rw [freeRange1_eq]
            exact colMin_lt_colMax_of_two _ _ _
              (List.mem_map_of_mem _ hrp0) (List.mem_map_of_mem _ hrq0) hpq1
          obtain ⟨p2, hp2, q2, hq2, hpq2⟩ := exists_snd_ne_of_not_collinear _ hcol
          rw [slicePts_eq] at hp2 hq2
          obtain ⟨rp2, hrp2, rfl⟩ := List.mem_map.mp hp2
          obtain ⟨rq2, hrq2, rfl⟩ := List.mem_map.mp hq2
          have hpq2s : freeCoord2 P rp2 ≠ freeCoord2 P rq2 := hpq2
          have hrp20 : rp2 ∈ df.rows := by
            rw [sliceSelect_eq_filter] at hrp2
            exact List.mem_of_mem_filter hrp2
          have hrq20 : rq2 ∈ df.rows := by
            rw [sliceSelect_eq_filter] at hrq2
            exact List.mem_of_mem_filter hrq2
          have hlt2 : (freeRange2 (computeMetadata df) P).1
              < (freeRange2 (computeMetadata df) P).2 := by
            rw [freeRange2_eq]
            exact colMin_lt_colMax_of_two _ _ _
              (List.mem_map_of_mem _ hrp20) (List.mem_map_of_mem _ hrq20) hpq2s
          have hbs : buildSlice interp (computeMetadata df) ds.GRID_SIZE P
              ((slicePositions (computeMetadata df) P ds.numSlices).getD i 0)
              (sliceSelect (computeMetadata df) ds.sliceInterptTol df P
                ((slicePositions (computeMetadata df) P ds.numSlices).getD i 0)) = s0 := by
            injection he with h1
            injection h1 with h2
          rw [← hbs, buildSlice_a1, buildSlice_a2]
          exact ⟨⟨linspace_length _ _ _, linspace_head _ _ _ (by omega),
              linspace_getLast _ _ _ hG, linspace_chain_lt _ _ _ hlt1⟩,
            ⟨linspace_length _ _ _, linspace_head _ _ _ (by omega),
              linspace_getLast _ _ _ hG, linspace_chain_lt _ _ _ hlt2⟩⟩

set_option maxRecDepth 400000 in
theorem slice_axes_strict_span_witness :
    (sliceW.a1.length = dsW.GRID_SIZE
      ∧ sliceW.a1.head? = some (freeRange1 (computeMetadata df1) Plane.XY).1
      ∧ sliceW.a1.getLast? = some (freeRange1 (computeMetadata df1) Plane.XY).2
      ∧ List.Chain' (· < ·) sliceW.a1)
    ∧ (sliceW.a2.length = dsW.GRID_SIZE
      ∧ sliceW.a2.head? = some (freeRange2 (computeMetadata df1) Plane.XY).1
      ∧ sliceW.a2.getLast? = some (freeRange2 (computeMetadata df1) Plane.XY).2
      ∧ List.Chain' (· < ·) sliceW.a2) :=
  slice_axes_strict_span interpQ dsW df1 rfl rfl rfl (by decide)
    (by with_unfolding_all decide) interpQ_ok Plane.XY 0 sliceW
    (by with_unfolding_all decide)

/-- C7: after loading a point cloud with only 5 points from an empty
artifact store, the run completes without raising — no window reaches
the 10-point threshold, so `griddata` is never called — every slice key
(all plane families, all indices) is absent, while all three axis line
profiles are still written (there is no point-count threshold for
profiles), with NaN recorded at every position whose bin contains no
points. -/
theorem five_points_no_slices (interp : Interp) (ds : DataStore) (df : DataFrame)
    (hdf : ds.df = some df) (hpr : ds.alreadyProcessed = false) (hc : ds.cache = [])
    (h5 : df.rows.length = 5) :
    (preprocessData interp ds).2 = false
    ∧ (∀ P : Plane, ∀ i : ℕ,
      Cache.get (preprocessData interp ds).1.cache (CacheKey.slice P i) = Option.none)
    ∧ (∀ a : Axis,
        Cache.get (preprocessData interp ds).1.cache (CacheKey.line a)
          = some (Artifact.line (processLineAxis (computeMetadata df) ds.GRID_SIZE df a)))
    ∧ (∀ a : Axis, ∀ vi, vi < (computeMetadata df).varNames.length →
        ∀ j, j < ds.GRID_SIZE →
        df.rows.filter (fun r =>
          |lineCoord a r - (linspace (lineRange (computeMetadata df) a).1
            (lineRange (computeMetadata df) a).2 ds.GRID_SIZE).getD j 0|
          < ((linspace (lineRange (computeMetadata df) a).1
              (lineRange (computeMetadata df) a).2 ds.GRID_SIZE).getD 1 0
             - (linspace (lineRange (computeMetadata df) a).1
                (lineRange (computeMetadata df) a).2 ds.GRID_SIZE).getD 0 0)
            * (11 / 10)) = [] →
        (((processLineAxis (computeMetadata df) ds.GRID_SIZE df a).vals.getD vi
            ((""), [])).2).getD j Option.none = Option.none) := by
  have hsel : ∀ (P : Plane) (v : ℚ),
      (sliceSelect (computeMetadata df) ds.sliceInterptTol df P v).length < 10 := by
    intro P v
    rw [sliceSelect_eq_filter]
    have hle := List.length_filter_le (fun r =>
      decide (|sliceCoord P r - v|
        < ((fixedRange (computeMetadata df) P).2
          - (fixedRange (computeMetadata df) P).1) * ds.sliceInterptTol)) df.rows
    omega
  have hplane : ∀ P0 : Plane, ∀ w ∈ planeWrites interp (computeMetadata df)
      ds.GRID_SIZE ds.sliceInterptTol ds.numSlices df P0, isOkB w.2 = true := by
    intro P0 w hw
    simp only [planeWrites, List.mem_map, List.mem_range] at hw
    obtain ⟨j, _, rfl⟩ := hw
    show isOkB (Except.map (Option.map Artifact.slice)
      (processSlice interp (computeMetadata df) ds.GRID_SIZE ds.sliceInterptTol df P0
        ((slicePositions (computeMetadata df) P0 ds.numSlices).getD j 0))) = true
    rw [processSlice_eq, if_pos (hsel P0 _)]
    rfl
  have hnr : (preprocessData interp ds).2 = false := by
    rw [preprocessData_raised interp ds df hdf hpr]
    apply (raisesIn_eq_false_iff _).mpr
    intro w hw
    rcases List.mem_cons.mp hw with h1 | h1
    · rw [h1]
      rfl
    rcases List.mem_append.mp h1 with h2 | h1
    · exact hplane Plane.XY w h2
    rcases List.mem_append.mp h1 with h2 | h1
    · exact hplane Plane.YZ w h2
    rcases List.mem_append.mp h1 with h2 | h1
    · exact hplane Plane.XZ w h2
    · simp only [lineWrites, List.mem_map] at h1
      obtain ⟨a, _, rfl⟩ := h1
      rfl
  refine ⟨hnr, ?_, fun a => preprocess_get_line interp ds df hdf hpr hnr a, ?_⟩
  · intro P i
    rw [preprocess_get_slice interp ds df hdf hpr hc hnr P i]
    by_cases hi : i < ds.numSlices
    · rw [if_pos hi, processSlice_eq, if_pos (hsel P _)]
      rfl
    · rw [if_neg hi]
  · intro a vi hvi j hj hfil
    rw [processLineAxis_value (computeMetadata df) ds.GRID_SIZE df a vi hvi j hj, hfil]
    rfl

/-- C7 witness: the 5-point store `dsW2`. -/
theorem five_points_no_slices_witness :
    (dsW2.df = some df2 ∧ dsW2.alreadyProcessed = false ∧ dsW2.cache = []
      ∧ df2.rows.length = 5)
    ∧ ((preprocessData interpQ dsW2).2 = false
      ∧ (∀ P : Plane, ∀ i : ℕ,
        Cache.get (preprocessData interpQ dsW2).1.cache (CacheKey.slice P i)
          = Option.none)
      ∧ (∀ a : Axis,
          Cache.get (preprocessData interpQ dsW2).1.cache (CacheKey.line a)
            = some (Artifact.line (processLineAxis (computeMetadata df2)
                dsW2.GRID_SIZE df2 a)))
      ∧ (∀ a : Axis, ∀ vi, vi < (computeMetadata df2).varNames.length →
          ∀ j, j < dsW2.GRID_SIZE →
          df2.rows.filter (fun r =>
            |lineCoord a r - (linspace (lineRange (computeMetadata df2) a).1
              (lineRange (computeMetadata df2) a).2 dsW2.GRID_SIZE).getD j 0|
            < ((linspace (lineRange (computeMetadata df2) a).1
                (lineRange (computeMetadata df2) a).2 dsW2.GRID_SIZE).getD 1 0
               - (linspace (lineRange (computeMetadata df2) a).1
                  (lineRange (computeMetadata df2) a).2 dsW2.GRID_SIZE).getD 0 0)
              * (11 / 10)) = [] →
          (((processLineAxis (computeMetadata df2) dsW2.GRID_SIZE df2 a).vals.getD vi
              ((""), [])).2).getD j Option.none = Option.none)) :=
  ⟨⟨rfl, rfl, rfl, rfl⟩, five_points_no_slices interpQ dsW2 df2 rfl rfl rfl rfl⟩

theorem setDataframe_state (interp : Interp) (ds : DataStore) (df : DataFrame) :
    setDataframe interp ds df =
      ({ ds with
         df := some df,
         metadata := some (computeMetadata df),
         cache := applyWrites ds.cache
           (okPrefix (preprocessWrites interp (computeMetadata df) ds.GRID_SIZE
             ds.sliceInterptTol ds.numSlices df)),
         alreadyProcessed := !(raisesIn (preprocessWrites interp (computeMetadata df)
           ds.GRID_SIZE ds.sliceInterptTol ds.numSlices df)) },
       raisesIn (preprocessWrites interp (computeMetadata df) ds.GRID_SIZE
         ds.sliceInterptTol ds.numSlices df)) := by
  rw [setDataframe,
    preprocessData_eq interp { ds with df := some df, alreadyProcessed := false } df
      rfl rfl]

set_option maxRecDepth 400000 in
/-- C1 counterexample: a second `set_dataframe` call with the dataset
that is already active (and already fully processed, flag set) still
executes the preprocessing body — `set_dataframe` unconditionally clears
the processed flag before calling `preprocess_data`, so the claimed
guard-suppression of the recomputation does not happen. -/
theorem reload_recomputes_cex :
    (setDataframe interpQ ds0 df2).1.df = some df2
    ∧ (setDataframe interpQ ds0 df2).1.alreadyProcessed = true
    ∧ (setDataframe interpQ ds0 df2).2 = false
    ∧ setDataframeRuns (setDataframe interpQ ds0 df2).1 df2 = true := by
  refine ⟨?_, ?_, ?_, ?_⟩ <;> with_unfolding_all decide

/-- C1 amended: a second `set_dataframe` call with the identical dataset
does rerun preprocessing in full (the flag is cleared unconditionally, so
the already-processed guard never suppresses it), but the recomputation
is deterministic: the resulting table, metadata, flag and raise status
coincide with the first run's, and the artifact readable at every cache
key is unchanged. -/
theorem reload_same_data_amended (interp : Interp) (ds : DataStore) (df : DataFrame) :
    setDataframeRuns (setDataframe interp ds df).1 df = true
    ∧ (setDataframe interp (setDataframe interp ds df).1 df).1.df
        = (setDataframe interp ds df).1.df
    ∧ (setDataframe interp (setDataframe interp ds df).1 df).1.metadata
        = (setDataframe interp ds df).1.metadata
    ∧ (setDataframe interp (setDataframe interp ds df).1 df).1.alreadyProcessed
        = (setDataframe interp ds df).1.alreadyProcessed
    ∧ (setDataframe interp (setDataframe interp ds df).1 df).2
        = (setDataframe interp ds df).2
    ∧ ∀ k : CacheKey,
        Cache.get (setDataframe interp (setDataframe interp ds df).1 df).1.cache k
          = Cache.get (setDataframe interp ds df).1.cache k := by
  have h1 := setDataframe_state interp ds df
  have h2 := setDataframe_state interp (setDataframe interp ds df).1 df
  refine ⟨rfl, ?_, ?_, ?_, ?_, ?_⟩
  · rw [h2, h1]
  · rw [h2, h1]
  · rw [h2, h1]
  · rw [h2, h1]
  · intro k
    rw [h2, h1]
    show Cache.get (applyWrites (applyWrites ds.cache
        (okPrefix (preprocessWrites interp (computeMetadata df) ds.GRID_SIZE
          ds.sliceInterptTol ds.numSlices df)))
        (okPrefix (preprocessWrites interp (computeMetadata df) ds.GRID_SIZE
          ds.sliceInterptTol ds.numSlices df))) k
      = Cache.get (applyWrites ds.cache
          (okPrefix (preprocessWrites interp (computeMetadata df) ds.GRID_SIZE
            ds.sliceInterptTol ds.numSlices df))) k
    rw [applyWrites_get, applyWrites_get]
    cases h : lastWrite (okPrefix (preprocessWrites interp (computeMetadata df)
        ds.GRID_SIZE ds.sliceInterptTol ds.numSlices df)) k <;> simp [h]

set_option maxRecDepth 400000 in
/-- C2 failing input: load `df1` (11 points in general position) — both
runs complete without raising, and the XY slice at index 0 is produced —
then reload with the 5-point `df2`, for which that slice is not produced.
`preprocess_data` only overwrites the keys it produces and never deletes
the rest, so the artifact computed from `df1` remains readable at the key
after the `df2` load, although a clean load of `df2` leaves it absent. -/
theorem stale_slice_after_reload :
    (setDataframe interpQ ds0 df1).2 = false
    ∧ (setDataframe interpQ (setDataframe interpQ ds0 df1).1 df2).2 = false
    ∧ Cache.get (setDataframe interpQ (setDataframe interpQ ds0 df1).1 df2).1.cache
        (CacheKey.slice Plane.XY 0)
      = Cache.get (setDataframe interpQ ds0 df1).1.cache (CacheKey.slice Plane.XY 0)
    ∧ Cache.get (setDataframe interpQ ds0 df1).1.cache (CacheKey.slice Plane.XY 0)
        ≠ Option.none
    ∧ Cache.get (setDataframe interpQ ds0 df2).1.cache (CacheKey.slice Plane.XY 0)
        = Option.none := by
  refine ⟨?_, ?_, ?_, ?_, ?_⟩ <;> with_unfolding_all decide

/-- C8: uploading a parsed CSV that is missing any of the required
columns x, y, z surfaces the validation alert and commits no state at
all: the returned store is the input store, so the previously active
table, its metadata, the processed flag and every cached artifact are
unchanged, and `set_dataframe` (hence preprocessing) never runs. -/
theorem upload_missing_columns_rejected (interp : Interp) (ds : DataStore)
    (t : RawTable)
    (h : (requiredCols.all (fun c => t.columns.contains c)) = false) :
    handleFileUpload interp ds (some t) = (UploadStatus.invalidColumns, ds) := by
  show (if (requiredCols.all (fun c => t.columns.contains c)) = false
        then (UploadStatus.invalidColumns, ds)
        else
          let r := setDataframe interp ds (toDataFrame t)
          if r.2 then (UploadStatus.loadError, r.1) else (UploadStatus.loaded, r.1)) = _
  rw [if_pos h]

/-- C8 witness: a table with columns x, y, q (missing z) is rejected and
the store `ds0` is returned unchanged. -/
theorem upload_missing_columns_rejected_witness :
    ((requiredCols.all (fun c => t0.columns.contains c)) = false)
    ∧ handleFileUpload interpQ ds0 (some t0) = (UploadStatus.invalidColumns, ds0) :=
  ⟨by decide, upload_missing_columns_rejected interpQ ds0 t0 (by decide)⟩

/-- C9: a store constructed over an existing default CSV performs no
preprocessing and writes nothing during initialization: `__init__` sets
the already-processed flag before `load_default_data` runs, so the
`preprocess_data` call returns immediately (and cannot raise) — the
artifact store stays empty, the metadata dict stays empty, the flag
stays set, the table is the default data — and a direct
`preprocess_data` call leaves the state untouched and does not raise,
while any later `set_dataframe` call does run the preprocessing body. -/
theorem init_performs_no_preprocessing (interp : Interp) (defaultDf : Option DataFrame) :
    (initStore interp defaultDf).cache = []
    ∧ (initStore interp defaultDf).metadata = Option.none
    ∧ (initStore interp defaultDf).alreadyProcessed = true
    ∧ (initStore interp defaultDf).df = defaultDf
    ∧ preprocessData interp (initStore interp defaultDf) = (initStore interp defaultDf, false)
    ∧ ∀ df : DataFrame, setDataframeRuns (initStore interp defaultDf) df = true := by
  cases defaultDf <;> exact ⟨rfl, rfl, rfl, rfl, rfl, fun _ => rfl⟩

/-- C10: for every successfully parsed input file, `import_case_data`
returns `(False, None)` and inserts no case: it passes five positional
arguments to the six-parameter `insert_case`, so the design-parameter
dict lands in the `case_date` (timestamp) slot and the metrics value in
the `design_params` slot; binding the dict as an sqlite parameter raises
`InterfaceError`, the exception is caught, the connection is closed
without a commit (rollback), and the database is unchanged. -/
theorem import_case_swapped_args_fails (db : DB) (data : List (String × PyVal))
    (now : String) :
    import_case_data db data now = ((false, Option.none), db) := rfl
